import Mathlib

/-!
Warble / Bleat (Windows 10 back end): scanner and GATT client.

A shallow embedding of `src/bleat/cpp/win10_scanner.cpp` and
`src/warble/cpp/win10_api.cpp`.

* `std::string` is `List Char`; `uint64_t`, `uint16_t`, `uint8_t` values are `Nat`.
* `std::unordered_map` is an association list with `find` / `emplace`; an
  `unordered_set` is a `Finset`.
* A callback (`handler`, `context`) is recorded in the trace that every
  operation returns; a null function pointer is `none`.
* Asynchronous task chains are run to completion against the answers the
  platform gives (the `BluetoothLEDevice` value carries the answers of its own
  enumeration calls); every transport call and every handler invocation is
  recorded in the trace, in program order.
-/

namespace Warble

/-! ## Text helpers -/

/-- A narrow C++ string. -/
abbrev Text := List Char

/-- Conversion `std::string(wide.begin(), wide.end())`: every wide code unit
is truncated to one byte. -/
def narrow (wide : List Char) : Text :=
  wide.map (fun c => Char.ofNat (c.toNat % 256))

/-- Member function `std::string::substr(pos, count)` for `pos` not past the end. -/
def substr (s : Text) (pos count : Nat) : Text :=
  (s.drop pos).take count

/-- Reading a `const char*` stops at the first NUL. -/
def c_str (s : Text) : Text :=
  s.takeWhile (fun c => c != Char.ofNat 0)

/-- One lowercase hexadecimal digit, as `printf("%x")` prints it. -/
def hexDigitLower (n : Nat) : Char :=
  "0123456789abcdef".toList.getD (n % 16) '0'

/-- Value of a hexadecimal digit in either case, `none` for any other character. -/
def hexVal (c : Char) : Option Nat :=
  if '0' ≤ c ∧ c ≤ '9' then some (c.toNat - 48)
  else if 'a' ≤ c ∧ c ≤ 'f' then some (c.toNat - 87)
  else if 'A' ≤ c ∧ c ≤ 'F' then some (c.toNat - 55)
  else none

/-- The `width` lowercase hex digits of `v`, most significant first. -/
def hexDigits (v width : Nat) : Text :=
  (List.range width).map (fun i => hexDigitLower (v / 16 ^ (width - 1 - i) % 16))

/-! ## Platform GUIDs -/

/-- A 128-bit `Platform::Guid`, read as one number (Data1 in the top 32 bits). -/
abbrev Guid := Nat

/-- Platform method `Guid::ToString`: braces around the 8-4-4-4-12 lowercase
hex form. -/
def Guid.ToString (g : Guid) : List Char :=
  ['{'] ++ hexDigits (g / 2 ^ 96 % 2 ^ 32) 8 ++ ['-'] ++ hexDigits (g / 2 ^ 80 % 2 ^ 16) 4
    ++ ['-'] ++ hexDigits (g / 2 ^ 64 % 2 ^ 16) 4 ++ ['-'] ++ hexDigits (g / 2 ^ 48 % 2 ^ 16) 4
    ++ ['-'] ++ hexDigits (g % 2 ^ 48) 12 ++ ['}']

/-- Base-16 value of a run of hex digits, `none` if one of them is not a digit. -/
def hexNumber : List Char → Nat → Option Nat
  | [], acc => some acc
  | c :: cs, acc =>
    match hexVal c with
    | some d => hexNumber cs (16 * acc + d)
    | none => none

/-- Platform function `IIDFromString`: accepts exactly the 38-character form
`{xxxxxxxx-xxxx-xxxx-xxxx-xxxxxxxxxxxx}` with hex digits of either case;
`none` stands for a failure `HRESULT`. -/
def IIDFromString (s : List Char) : Option Guid :=
  if s.length = 38 ∧ s.take 1 = ['{'] ∧ s.drop 37 = ['}']
      ∧ (s.drop 9).take 1 = ['-'] ∧ (s.drop 14).take 1 = ['-']
      ∧ (s.drop 19).take 1 = ['-'] ∧ (s.drop 24).take 1 = ['-'] then
    hexNumber ((s.drop 1).take 8 ++ (s.drop 10).take 4 ++ (s.drop 15).take 4
      ++ (s.drop 20).take 4 ++ (s.drop 25).take 12) 0
  else none

/-! ## Association lists standing for `std::unordered_map` -/

/-- Lookup `m.find(k)`: the value stored under `k`, `none` for `end()`. -/
def mapFind {κ ν : Type} [DecidableEq κ] : List (κ × ν) → κ → Option ν
  | [], _ => none
  | (k', v) :: m, k => if k' = k then some v else mapFind m k

/-- Insertion `m.emplace(k, v)`: inserts only when `k` is not yet a key. -/
def mapEmplace {κ ν : Type} [DecidableEq κ] (m : List (κ × ν)) (k : κ) (v : ν) : List (κ × ν) :=
  match mapFind m k with
  | some _ => m
  | none => m ++ [(k, v)]

/-- Writing through an iterator: the value under the existing key `k` becomes `v`. -/
def mapSet {κ ν : Type} [DecidableEq κ] : List (κ × ν) → κ → ν → List (κ × ν)
  | [], _, _ => []
  | (k', v') :: m, k, v => if k' = k then (k', v) :: m else (k', v') :: mapSet m k v

/-! ## The advertisement scanner (`win10_scanner.cpp`) -/

/-- Platform enum `BluetoothLEAdvertisementType`. -/
inductive BluetoothLEAdvertisementType
  | ConnectableUndirected
  | ConnectableDirected
  | ScannableUndirected
  | NonConnectableUndirected
  | ScanResponse
  deriving DecidableEq, Repr

/-- One manufacturer-data section of an advertisement. -/
structure BluetoothLEManufacturerData where
  CompanyId : Nat
  Data : List Nat
  deriving DecidableEq, Repr

/-- Payload of one received frame. -/
structure BluetoothLEAdvertisement where
  ServiceUuids : List Guid
  ManufacturerData : List BluetoothLEManufacturerData
  LocalName : List Char
  deriving DecidableEq, Repr

/-- Arguments of the watcher's `Received` event. -/
structure BluetoothLEAdvertisementReceivedEventArgs where
  BluetoothAddress : Nat
  AdvertisementType : BluetoothLEAdvertisementType
  Advertisement : BluetoothLEAdvertisement
  RawSignalStrengthInDBm : Int
  deriving DecidableEq, Repr

/-- Struct `BleatScanMftData`: a byte buffer and its length. -/
structure BleatScanMftData where
  value : List Nat
  value_size : Nat
  deriving DecidableEq, Repr

/-- Modelled from the spec: `BleatScanPrivateData` is declared in
`scanner_def.h`, which is not part of the sources; the spec's ScanRecord holds
a set of advertised service UUIDs and a mapping from company identifier to
manufacturer payload, and the code uses them through `emplace` and `clear`. -/
structure BleatScanPrivateData where
  manufacturer_data : List (Nat × BleatScanMftData)
  service_uuids : Finset Text
  deriving DecidableEq

/-- A default-constructed record. -/
def BleatScanPrivateData.empty : BleatScanPrivateData :=
  { manufacturer_data := [], service_uuids := ∅ }

/-- Struct `BleatScanResult`; `private_data` is the pointed-to record as it
is when the handler runs. -/
structure BleatScanResult where
  mac : Text
  name : Text
  rssi : Int
  private_data : BleatScanPrivateData
  deriving DecidableEq

/-- One invocation `scan_result_handler(scan_result_context, &result)`. -/
structure ScanHandlerCall where
  handler : Nat
  context : Nat
  result : BleatScanResult
  deriving DecidableEq

/-- Class `BleatScanner_Win10`; `watcher` is whether the advertisement
watcher has been started. -/
structure BleatScanner_Win10 where
  scan_result_context : Nat
  scan_result_handler : Option Nat
  seen_devices : List (Nat × BleatScanPrivateData)
  watcher : Bool
  deriving DecidableEq

/-- The constructor: null handler and context, no device seen, watcher created
but not started. -/
def BleatScanner_Win10.new : BleatScanner_Win10 :=
  { scan_result_context := 0, scan_result_handler := none, seen_devices := [], watcher := false }

/-- The text stored for an advertised service UUID:
`string(wide.begin(), wide.end()).substr(1, 36)` of `Guid::ToString`. -/
def uuidText (g : Guid) : Text :=
  substr (narrow (Guid.ToString g)) 1 36

/-- Conversion `"%02x"` of an `unsigned char`. -/
def fmt02x (b : Nat) : Text :=
  [hexDigitLower (b / 16), hexDigitLower (b % 16)]

/-- Byte `bytes[i]` of a `uint64_t` seen through `unsigned char*`
(little-endian, as on every Windows target). -/
def byteOf (raw : Nat) (i : Nat) : Nat :=
  raw / 256 ^ i % 256

/-- The `sprintf_s` call that renders `mac_str`. -/
def mac_str (mac_raw : Nat) : Text :=
  fmt02x (byteOf mac_raw 5) ++ [':'] ++ fmt02x (byteOf mac_raw 4) ++ [':']
    ++ fmt02x (byteOf mac_raw 3) ++ [':'] ++ fmt02x (byteOf mac_raw 2) ++ [':']
    ++ fmt02x (byteOf mac_raw 1) ++ [':'] ++ fmt02x (byteOf mac_raw 0)

/-- The loop over `ServiceUuids` of a non-scan-response frame. -/
def addServiceUuids (record : BleatScanPrivateData) (uuids : List Guid) : BleatScanPrivateData :=
  uuids.foldl (fun r g => { r with service_uuids := insert (uuidText g) r.service_uuids }) record

/-- The loop over `ManufacturerData` of a scan-response frame. -/
def addManufacturerData (record : BleatScanPrivateData)
    (sections : List BluetoothLEManufacturerData) : BleatScanPrivateData :=
  sections.foldl
    (fun r d =>
      let data : BleatScanMftData := { value := d.Data, value_size := d.Data.length }
      { r with manufacturer_data := mapEmplace r.manufacturer_data d.CompanyId data })
    record

/-- The lambda subscribed to `watcher->Received`. -/
def Received (s : BleatScanner_Win10) (args : BluetoothLEAdvertisementReceivedEventArgs) :
    BleatScanner_Win10 × List ScanHandlerCall :=
  let seen :=
    match mapFind s.seen_devices args.BluetoothAddress with
    | none => mapEmplace s.seen_devices args.BluetoothAddress BleatScanPrivateData.empty
    | some _ => s.seen_devices
  let it := (mapFind seen args.BluetoothAddress).getD BleatScanPrivateData.empty
  if args.AdvertisementType ≠ BluetoothLEAdvertisementType.ScanResponse then
    let record := addServiceUuids it args.Advertisement.ServiceUuids
    ({ s with seen_devices := mapSet seen args.BluetoothAddress record }, [])
  else
    match s.scan_result_handler with
    | some handler =>
      let record := addManufacturerData { it with manufacturer_data := [] }
        args.Advertisement.ManufacturerData
      let result : BleatScanResult :=
        { mac := mac_str args.BluetoothAddress
          name := c_str (narrow args.Advertisement.LocalName)
          rssi := args.RawSignalStrengthInDBm
          private_data := record }
      ({ s with seen_devices := mapSet seen args.BluetoothAddress record },
        [{ handler := handler, context := s.scan_result_context, result := result }])
    | none => ({ s with seen_devices := seen }, [])

/-- Method `set_handler`. -/
def BleatScanner_Win10.set_handler (s : BleatScanner_Win10) (context : Nat)
    (handler : Option Nat) : BleatScanner_Win10 :=
  { s with scan_result_context := context, scan_result_handler := handler }

/-- Method `start`: only `watcher->Start()`. -/
def BleatScanner_Win10.start (s : BleatScanner_Win10) : BleatScanner_Win10 :=
  { s with watcher := true }

/-- Method `stop`: only `watcher->Stop()`. -/
def BleatScanner_Win10.stop (s : BleatScanner_Win10) : BleatScanner_Win10 :=
  { s with watcher := false }

/-- The scanner after the handler has processed the frames in order. -/
def runFrames (s : BleatScanner_Win10) (frames : List BluetoothLEAdvertisementReceivedEventArgs) :
    BleatScanner_Win10 :=
  frames.foldl (fun st f => (Received st f).1) s

/-- The service-UUID set of the record stored for an address (empty when the
address has no record). -/
def serviceUuidsOf (s : BleatScanner_Win10) (addr : Nat) : Finset Text :=
  match mapFind s.seen_devices addr with
  | some record => record.service_uuids
  | none => ∅

/-- The manufacturer-data mapping of the record stored for an address. -/
def manufacturerDataOf (s : BleatScanner_Win10) (addr : Nat) : List (Nat × BleatScanMftData) :=
  match mapFind s.seen_devices addr with
  | some record => record.manufacturer_data
  | none => []

/-- The service-UUID texts carried by the non-scan-response frames of one
address, as a set over the set of frames. -/
def advertisedUuids (frames : List BluetoothLEAdvertisementReceivedEventArgs) (addr : Nat) :
    Finset Text :=
  (frames.toFinset.filter (fun f => f.BluetoothAddress = addr
      ∧ f.AdvertisementType ≠ BluetoothLEAdvertisementType.ScanResponse)).biUnion
    (fun f => f.Advertisement.ServiceUuids.toFinset.image uuidText)


/-! ### Concrete frames used to evaluate the scanner -/

/-- An advertisement frame of device `a4:34:f1:00:11:22` carrying the service
UUID `0000180d-0000-1000-8000-00805f9b34fb`. -/
def frameAdvHeartRate : BluetoothLEAdvertisementReceivedEventArgs :=
  { BluetoothAddress := 0xa434f1001122
    AdvertisementType := BluetoothLEAdvertisementType.ConnectableUndirected
    Advertisement :=
      { ServiceUuids := [0x0000180d00001000800000805f9b34fb], ManufacturerData := [],
        LocalName := [] }
    RawSignalStrengthInDBm := -60 }

/-- An advertisement frame of the same device carrying the service UUID
`0000180f-0000-1000-8000-00805f9b34fb`. -/
def frameAdvBattery : BluetoothLEAdvertisementReceivedEventArgs :=
  { BluetoothAddress := 0xa434f1001122
    AdvertisementType := BluetoothLEAdvertisementType.ConnectableUndirected
    Advertisement :=
      { ServiceUuids := [0x0000180f00001000800000805f9b34fb], ManufacturerData := [],
        LocalName := [] }
    RawSignalStrengthInDBm := -59 }

/-- Scan-response frame F1 of the same device: manufacturer data `1 ↦ "a"`. -/
def frameScanRspF1 : BluetoothLEAdvertisementReceivedEventArgs :=
  { BluetoothAddress := 0xa434f1001122
    AdvertisementType := BluetoothLEAdvertisementType.ScanResponse
    Advertisement :=
      { ServiceUuids := [], ManufacturerData := [{ CompanyId := 1, Data := [97] }],
        LocalName := "MetaWear".toList }
    RawSignalStrengthInDBm := -61 }

/-- Scan-response frame F2 of the same device: manufacturer data `2 ↦ "b"`. -/
def frameScanRspF2 : BluetoothLEAdvertisementReceivedEventArgs :=
  { BluetoothAddress := 0xa434f1001122
    AdvertisementType := BluetoothLEAdvertisementType.ScanResponse
    Advertisement :=
      { ServiceUuids := [], ManufacturerData := [{ CompanyId := 2, Data := [98] }],
        LocalName := "MetaWear".toList }
    RawSignalStrengthInDBm := -62 }

/-- A scanner in its second session: it saw `frameAdvHeartRate` in the first
one, was stopped and started again. -/
def scannerSecondSession : BleatScanner_Win10 :=
  (runFrames BleatScanner_Win10.new.start [frameAdvHeartRate]).stop.start

/-- A scanner with handler `7` (context `3`) registered and started. -/
def scannerWithHandler : BleatScanner_Win10 :=
  (BleatScanner_Win10.new.set_handler 3 (some 7)).start

/-! ## The GATT client (`win10_api.cpp`) -/

/-- Platform enum `GattCommunicationStatus`. -/
inductive GattCommunicationStatus
  | Success
  | Unreachable
  | ProtocolError
  | AccessDenied
  deriving DecidableEq, Repr

/-- Platform enum `BluetoothConnectionStatus`. -/
inductive BluetoothConnectionStatus
  | Disconnected
  | Connected
  deriving DecidableEq, Repr

/-- Platform enum `BluetoothAddressType`. -/
inductive BluetoothAddressType
  | Public
  | Random
  | Unspecified
  deriving DecidableEq, Repr

/-- Platform enum `GattWriteOption`. -/
inductive GattWriteOption
  | WriteWithResponse
  | WriteWithoutResponse
  deriving DecidableEq, Repr

/-- Platform enum `GattClientCharacteristicConfigurationDescriptorValue`
(the two values the code writes). -/
inductive GattClientCharacteristicConfigurationDescriptorValue
  | None
  | Notify
  deriving DecidableEq, Repr

/-- Platform object `GattCharacteristic`. -/
structure GattCharacteristic where
  Uuid : Guid
  AttributeHandle : Nat
  deriving DecidableEq, Repr

/-- Platform object `GattCharacteristicsResult`. -/
structure GattCharacteristicsResult where
  Status : GattCommunicationStatus
  Characteristics : List GattCharacteristic
  deriving DecidableEq, Repr

/-- Platform object `GattDeviceService`, with the answer its
`GetCharacteristicsAsync()` call completes with. -/
structure GattDeviceService where
  Uuid : Guid
  GetCharacteristicsAsync : GattCharacteristicsResult
  deriving DecidableEq, Repr

/-- Platform object `GattDeviceServicesResult`. -/
structure GattDeviceServicesResult where
  Status : GattCommunicationStatus
  Services : List GattDeviceService
  deriving DecidableEq, Repr

/-- Platform object `BluetoothLEDevice`, with its current connection status
and the answer its `GetGattServicesAsync()` call completes with. -/
structure BluetoothLEDevice where
  ConnectionStatus : BluetoothConnectionStatus
  GetGattServicesAsync : GattDeviceServicesResult
  deriving DecidableEq, Repr

/-- Platform object `GattReadResult`. -/
structure GattReadResult where
  Status : GattCommunicationStatus
  Value : List Nat
  deriving DecidableEq, Repr

/-- The `const char*` error a completion handler receives: one of the
constants of `error_messages.h` (not part of the sources, kept by name) or the
`what()` text of a `runtime_error`. -/
inductive ErrorMessage
  | WARBLE_GATT_WRITE_ERROR
  | WARBLE_GATT_READ_ERROR
  | WARBLE_GATT_ENABLE_NOTIFY_ERROR
  | WARBLE_GATT_DISABLE_NOTIFY_ERROR
  | what (msg : String)
  deriving DecidableEq, Repr

/-- A call into the platform's Bluetooth transport. -/
inductive TransportCall
  | FromBluetoothAddressAsync (address : Nat) (addr_type : BluetoothAddressType)
  | GetGattServicesAsync
  | GetCharacteristicsAsync (service : Guid)
  | WriteValueAsync (c : GattCharacteristic) (value : List Nat) (option : GattWriteOption)
  | ReadValueAsync (c : GattCharacteristic)
  | WriteClientCharacteristicConfigurationDescriptorAsync (c : GattCharacteristic)
      (value : GattClientCharacteristicConfigurationDescriptorValue)
  deriving DecidableEq, Repr

/-- What an operation does that is visible outside: transport calls and
invocations of caller-supplied handlers, `error = none` being `nullptr`. -/
inductive Event
  | transport (call : TransportCall)
  | connect_handler (handler context : Nat) (error : Option ErrorMessage)
  | disconnect_handler (handler context : Nat) (status : Int)
  | char_handler (handler context : Nat) (caller : GattCharacteristic)
      (error : Option ErrorMessage)
  | read_handler (handler context : Nat) (caller : GattCharacteristic)
      (value : Option (List Nat)) (length : Nat) (error : Option ErrorMessage)
  deriving DecidableEq, Repr

/-- Whether a trace entry is a transport call. -/
def Event.isTransport : Event → Bool
  | Event.transport _ => true
  | _ => false

/-- Whether a trace entry is an invocation of the disconnect observer. -/
def Event.isDisconnectHandler : Event → Bool
  | Event.disconnect_handler _ _ _ => true
  | _ => false

/-- Struct `WarbleGattChar_Win10`. The `owner` pointer is not a field here: a
handle belongs to the connection whose `characteristics` table holds it.
`ValueChanged` is the list of handlers subscribed to the platform event
`characteristic->ValueChanged`, each as (registration token, context,
handler); `cookie` is the member that keeps the token of the last
subscription, `none` while it was never assigned. -/
structure WarbleGattChar_Win10 where
  characteristic : GattCharacteristic
  ValueChanged : List (Nat × Nat × Nat)
  cookie : Option Nat
  uuid_str : Text
  deriving DecidableEq, Repr

/-- The constructor of `WarbleGattChar_Win10`. -/
def WarbleGattChar_Win10.new (characteristic : GattCharacteristic) : WarbleGattChar_Win10 :=
  { characteristic := characteristic, ValueChanged := [], cookie := none
    uuid_str := substr (narrow (Guid.ToString characteristic.Uuid)) 1 36 }

/-- Struct `WarbleGatt_Win10`. The `ConnectionStatusChanged` handler behind
`cookie` is subscribed exactly while `device` is set: it is added where
`device` is assigned and removed where `device` is reset. -/
structure WarbleGatt_Win10 where
  mac : Text
  on_disconnect_context : Nat
  on_disconnect_handler : Option Nat
  device : Option BluetoothLEDevice
  addr_type : BluetoothAddressType
  characteristics : List (Guid × WarbleGattChar_Win10)
  services : Finset Guid
  deriving DecidableEq

/-- The constructor of `WarbleGatt_Win10`. -/
def WarbleGatt_Win10.new (mac : Text) (addr_type : BluetoothAddressType) : WarbleGatt_Win10 :=
  { mac := mac, on_disconnect_context := 0, on_disconnect_handler := none, device := none
    addr_type := addr_type, characteristics := [], services := ∅ }

/-- Member function `std::string::erase(pos, count)`; `none` is the
`out_of_range` exception for `pos` past the end. -/
def erase (s : Text) (pos count : Nat) : Option Text :=
  if pos > s.length then none else some (s.take pos ++ s.drop (pos + count))

/-- C function `isspace` in the "C" locale. -/
def isspace (c : Char) : Bool :=
  c = ' ' || c = '\t' || c = '\n' || c = Char.ofNat 11 || c = Char.ofNat 12 || c = '\r'

/-- An optional sign in front of a number: whether it was `-`, and the rest. -/
def stripSign : Text → Bool × Text
  | [] => (false, [])
  | c :: t => if c = '-' then (true, t) else if c = '+' then (false, t) else (false, c :: t)

/-- An optional `0x` / `0X` in front of a base-16 number (taken only when a
hex digit follows). -/
def stripHexPrefix : Text → Text
  | z :: x :: h :: t =>
    if z = '0' ∧ (x = 'x' ∨ x = 'X') ∧ (hexVal h).isSome then h :: t else z :: x :: h :: t
  | s => s

/-- The values of the longest prefix of hex digits. -/
def hexPrefix : Text → List Nat
  | [] => []
  | c :: cs =>
    match hexVal c with
    | some d => d :: hexPrefix cs
    | none => []

/-- Library function `std::stoull(str, &pos, 16)`: leading white space, an
optional sign, an optional `0x`, then the longest run of hex digits; `none` is
an exception (`invalid_argument` when there is no digit, `out_of_range` when
the value does not fit 64 bits). -/
def stoull16 (s : Text) : Option Nat :=
  let signed := stripSign (s.dropWhile isspace)
  let digits := hexPrefix (stripHexPrefix signed.2)
  if digits = [] then none
  else
    let v := digits.foldl (fun acc d => 16 * acc + d) 0
    if 2 ^ 64 ≤ v then none
    else some (if signed.1 then (2 ^ 64 - v) % 2 ^ 64 else v)

/-- The address conversion at the start of `connect_async`: five `erase`
calls, then `stoull(mac_copy.c_str(), &temp, 16)`; `none` when one of them
throws. -/
def mac_ulong (mac : Text) : Option Nat :=
  (erase mac 2 1).bind fun m1 =>
  (erase m1 4 1).bind fun m2 =>
  (erase m2 6 1).bind fun m3 =>
  (erase m3 8 1).bind fun m4 =>
  (erase m4 10 1).bind fun m5 =>
  stoull16 (c_str m5)

/-- The loop over the characteristic-enumeration results: the table after
the loop, and whether the loop finished without throwing. -/
def addCharacteristics : List (Guid × WarbleGattChar_Win10) → List GattCharacteristicsResult →
    List (Guid × WarbleGattChar_Win10) × Bool
  | table, [] => (table, true)
  | table, it :: rest =>
    if it.Status = GattCommunicationStatus.Success then
      addCharacteristics
        (it.Characteristics.foldl
          (fun m it2 => mapEmplace m it2.Uuid (WarbleGattChar_Win10.new it2)) table)
        rest
    else (table, false)

/-- The continuations of `connect_async` that run once the device is held:
service enumeration, characteristic enumeration of every service, building
the handles, and the final continuation that calls the handler. `trace` is
what happened before. -/
def discover (s : WarbleGatt_Win10) (device : BluetoothLEDevice) (trace : List Event)
    (context handler : Nat) : WarbleGatt_Win10 × List Event :=
  let result := device.GetGattServicesAsync
  let trace1 := trace ++ [Event.transport TransportCall.GetGattServicesAsync]
  if result.Status = GattCommunicationStatus.Success then
    let services := result.Services.foldl (fun acc it => insert it.Uuid acc) s.services
    let trace2 := trace1 ++ result.Services.map
      (fun it => Event.transport (TransportCall.GetCharacteristicsAsync it.Uuid))
    let results := result.Services.map (fun it => it.GetCharacteristicsAsync)
    let built := addCharacteristics s.characteristics results
    let s2 := { s with services := services, characteristics := built.1 }
    if built.2 then
      (s2, trace2 ++ [Event.connect_handler handler context none])
    else
      (s2, trace2 ++ [Event.connect_handler handler context
        (some (ErrorMessage.what "Failed to discover gatt characteristics"))])
  else
    (s, trace1 ++ [Event.connect_handler handler context
      (some (ErrorMessage.what "Failed to discover gatt services"))])

/-- Method `connect_async`, run against the platform's device resolution.
The result is `none` when the address conversion throws before any task is
created. -/
def WarbleGatt_Win10.connect_async
    (FromBluetoothAddressAsync : Nat → BluetoothAddressType → Option BluetoothLEDevice)
    (s : WarbleGatt_Win10) (context handler : Nat) : Option (WarbleGatt_Win10 × List Event) :=
  match s.device with
  | some device => some (discover s device [] context handler)
  | none =>
    match mac_ulong s.mac with
    | none => none
    | some mac_ulong =>
      let trace :=
        [Event.transport (TransportCall.FromBluetoothAddressAsync mac_ulong s.addr_type)]
      match FromBluetoothAddressAsync mac_ulong s.addr_type with
      | none =>
        some (s, trace ++ [Event.connect_handler handler context
          (some (ErrorMessage.what
            "Failed to discover device (FromBluetoothAddressAsync returned nullptr)"))])
      | some device => some (discover { s with device := some device } device trace context handler)

/-- Method `cleanup`. -/
def WarbleGatt_Win10.cleanup (s : WarbleGatt_Win10) : WarbleGatt_Win10 :=
  { s with characteristics := [], services := ∅, device := none }

/-- Method `disconnect`. -/
def WarbleGatt_Win10.disconnect (s : WarbleGatt_Win10) : WarbleGatt_Win10 × List Event :=
  match s.on_disconnect_handler with
  | some handler => (s.cleanup, [Event.disconnect_handler handler s.on_disconnect_context 0])
  | none => (s.cleanup, [])

/-- Method `on_disconnect`. -/
def WarbleGatt_Win10.on_disconnect (s : WarbleGatt_Win10) (context : Nat)
    (handler : Option Nat) : WarbleGatt_Win10 :=
  { s with on_disconnect_context := context, on_disconnect_handler := handler }

/-- Method `is_connected`. -/
def WarbleGatt_Win10.is_connected (s : WarbleGatt_Win10) : Bool :=
  match s.device with
  | some device => device.ConnectionStatus = BluetoothConnectionStatus.Connected
  | none => false

/-- The platform raises `ConnectionStatusChanged` on the held device with its
new status: the subscribed lambda runs. With no device held there is no
subscription and nothing runs. -/
def WarbleGatt_Win10.ConnectionStatusChanged (s : WarbleGatt_Win10)
    (status : BluetoothConnectionStatus) : WarbleGatt_Win10 × List Event :=
  match s.device with
  | none => (s, [])
  | some device =>
    let s1 := { s with device := some { device with ConnectionStatus := status } }
    match status with
    | BluetoothConnectionStatus.Disconnected =>
      match s.on_disconnect_handler with
      | some handler => (s1, [Event.disconnect_handler handler s.on_disconnect_context 0])
      | none => (s1, [])
    | BluetoothConnectionStatus.Connected => (s1, [])

/-- Macro `UUID_TO_GUID`: braces are put around the text, the
`Platform::String` built from `stream.str().c_str()` ends at the first NUL,
and the platform parses it; `none` is a failed `HRESULT`. (Widening the bytes
to `wchar_t` changes no ASCII character, and a widened non-ASCII byte is
neither NUL nor a character the platform accepts.) -/
def UUID_TO_GUID (uuid : Text) : Option Guid :=
  IIDFromString (c_str (['{'] ++ uuid ++ ['}']))

/-- Method `find_characteristic`; `none` is `nullptr`. -/
def WarbleGatt_Win10.find_characteristic (s : WarbleGatt_Win10) (uuid : Text) :
    Option WarbleGattChar_Win10 :=
  match UUID_TO_GUID uuid with
  | some rawguid => mapFind s.characteristics rawguid
  | none => none

/-- Method `service_exists`. -/
def WarbleGatt_Win10.service_exists (s : WarbleGatt_Win10) (uuid : Text) : Bool :=
  match UUID_TO_GUID uuid with
  | some rawguid => decide (rawguid ∈ s.services)
  | none => false

/-- Method `write_inner_async`, with the status the transport answers. -/
def WarbleGattChar_Win10.write_inner_async (c : WarbleGattChar_Win10) (option : GattWriteOption)
    (value : List Nat) (len : Nat) (context handler : Nat) (status : GattCommunicationStatus) :
    List Event :=
  let wrapper := value.take len
  [Event.transport (TransportCall.WriteValueAsync c.characteristic wrapper option),
    if status ≠ GattCommunicationStatus.Success then
      Event.char_handler handler context c.characteristic
        (some ErrorMessage.WARBLE_GATT_WRITE_ERROR)
    else Event.char_handler handler context c.characteristic none]

/-- Method `write_async`. -/
def WarbleGattChar_Win10.write_async (c : WarbleGattChar_Win10) (value : List Nat) (len : Nat)
    (context handler : Nat) (status : GattCommunicationStatus) : List Event :=
  c.write_inner_async GattWriteOption.WriteWithResponse value len context handler status

/-- Method `write_without_resp_async`. -/
def WarbleGattChar_Win10.write_without_resp_async (c : WarbleGattChar_Win10) (value : List Nat)
    (len : Nat) (context handler : Nat) (status : GattCommunicationStatus) : List Event :=
  c.write_inner_async GattWriteOption.WriteWithoutResponse value len context handler status

/-- Method `read_async`, with the result the transport answers. The handler
takes the length as a `uint8_t`, so `wrapper->Length` arrives modulo 256. -/
def WarbleGattChar_Win10.read_async (c : WarbleGattChar_Win10) (context handler : Nat)
    (result : GattReadResult) : List Event :=
  [Event.transport (TransportCall.ReadValueAsync c.characteristic),
    if result.Status = GattCommunicationStatus.Success then
      Event.read_handler handler context c.characteristic (some result.Value)
        (result.Value.length % 256) none
    else
      Event.read_handler handler context c.characteristic none 0
        (some ErrorMessage.WARBLE_GATT_READ_ERROR)]

/-- Method `enable_notifications_async`, with the status the transport answers. -/
def WarbleGattChar_Win10.enable_notifications_async (c : WarbleGattChar_Win10)
    (context handler : Nat) (status : GattCommunicationStatus) : List Event :=
  [Event.transport (TransportCall.WriteClientCharacteristicConfigurationDescriptorAsync
      c.characteristic GattClientCharacteristicConfigurationDescriptorValue.Notify),
    if status = GattCommunicationStatus.Success then
      Event.char_handler handler context c.characteristic none
    else
      Event.char_handler handler context c.characteristic
        (some ErrorMessage.WARBLE_GATT_ENABLE_NOTIFY_ERROR)]

/-- Method `disable_notifications_async`, with the status the transport
answers; on success `ValueChanged -= cookie` removes the subscription whose
token `cookie` holds (the last one registered), and only that one. -/
def WarbleGattChar_Win10.disable_notifications_async (c : WarbleGattChar_Win10)
    (context handler : Nat) (status : GattCommunicationStatus) :
    WarbleGattChar_Win10 × List Event :=
  let call := Event.transport (TransportCall.WriteClientCharacteristicConfigurationDescriptorAsync
    c.characteristic GattClientCharacteristicConfigurationDescriptorValue.None)
  if status = GattCommunicationStatus.Success then
    let remaining := c.ValueChanged.filter (fun e => decide (some e.1 ≠ c.cookie))
    ({ c with ValueChanged := remaining },
      [call, Event.char_handler handler context c.characteristic none])
  else
    (c, [call, Event.char_handler handler context c.characteristic
      (some ErrorMessage.WARBLE_GATT_DISABLE_NOTIFY_ERROR)])

/-- Method `on_notification_received`: `ValueChanged +=` adds one more
subscription, for which the platform hands out `token`, and `cookie` keeps
that token (an earlier subscription stays subscribed). -/
def WarbleGattChar_Win10.on_notification_received (c : WarbleGattChar_Win10)
    (context handler token : Nat) : WarbleGattChar_Win10 :=
  { c with ValueChanged := c.ValueChanged ++ [(token, context, handler)], cookie := some token }

/-! ### Sequences of operations on one connection -/

/-- A way into the disconnected state: the caller's `disconnect()` or a
`ConnectionStatusChanged` event with status `Disconnected` fired by the
transport. -/
inductive DisconnectEvent
  | caller
  | transport
  deriving DecidableEq, Repr

/-- One disconnect event applied to a connection. -/
def DisconnectEvent.apply (s : WarbleGatt_Win10) : DisconnectEvent → WarbleGatt_Win10 × List Event
  | DisconnectEvent.caller => s.disconnect
  | DisconnectEvent.transport =>
    s.ConnectionStatusChanged BluetoothConnectionStatus.Disconnected

/-- A sequence of disconnect events applied in order, with the joined trace. -/
def runDisconnects (s : WarbleGatt_Win10) : List DisconnectEvent → WarbleGatt_Win10 × List Event
  | [] => (s, [])
  | e :: es =>
    let r := e.apply s
    let r2 := runDisconnects r.1 es
    (r2.1, r.2 ++ r2.2)

/-- Number of invocations of the disconnect observer in a trace. -/
def observerInvocations (trace : List Event) : Nat :=
  (trace.filter Event.isDisconnectHandler).length

/-- An operation on a connection, each run to completion before the next
one starts. -/
inductive GattOp
  | connect_async
      (FromBluetoothAddressAsync : Nat → BluetoothAddressType → Option BluetoothLEDevice)
      (context handler : Nat)
  | disconnect
  | on_disconnect (context : Nat) (handler : Option Nat)
  | ConnectionStatusChanged (status : BluetoothConnectionStatus)

/-- The connection after one operation (unchanged when `connect_async`
throws). -/
def GattOp.apply (s : WarbleGatt_Win10) : GattOp → WarbleGatt_Win10
  | GattOp.connect_async resolve context handler =>
    match s.connect_async resolve context handler with
    | some r => r.1
    | none => s
  | GattOp.disconnect => s.disconnect.1
  | GattOp.on_disconnect context handler => s.on_disconnect context handler
  | GattOp.ConnectionStatusChanged status => (s.ConnectionStatusChanged status).1

/-- The connection after a sequence of operations. -/
def runOps (s : WarbleGatt_Win10) (ops : List GattOp) : WarbleGatt_Win10 :=
  ops.foldl GattOp.apply s

/-! ### Concrete transports used to evaluate the client -/

/-- Service `0000180d-…` with the single characteristic `00002a37-…`. -/
def heartRateService : GattDeviceService :=
  { Uuid := 0x0000180d00001000800000805f9b34fb
    GetCharacteristicsAsync :=
      { Status := GattCommunicationStatus.Success
        Characteristics := [{ Uuid := 0x00002a3700001000800000805f9b34fb, AttributeHandle := 3 }] } }

/-- Service `0000180f-…` whose characteristic enumeration is answered
`Unreachable`. -/
def batteryServiceUnreachable : GattDeviceService :=
  { Uuid := 0x0000180f00001000800000805f9b34fb
    GetCharacteristicsAsync :=
      { Status := GattCommunicationStatus.Unreachable, Characteristics := [] } }

/-- A device that enumerates the heart-rate service only. -/
def heartRateDevice : BluetoothLEDevice :=
  { ConnectionStatus := BluetoothConnectionStatus.Connected
    GetGattServicesAsync :=
      { Status := GattCommunicationStatus.Success, Services := [heartRateService] } }

/-- A device whose second service fails its characteristic enumeration. -/
def halfFailingDevice : BluetoothLEDevice :=
  { ConnectionStatus := BluetoothConnectionStatus.Connected
    GetGattServicesAsync :=
      { Status := GattCommunicationStatus.Success
        Services := [heartRateService, batteryServiceUnreachable] } }

/-- A transport on which only `a4:34:f1:00:11:22` resolves, to `device`. -/
def transportWith (device : BluetoothLEDevice) (address : Nat) (_ : BluetoothAddressType) :
    Option BluetoothLEDevice :=
  if address = 0xa434f1001122 then some device else none

/-- A freshly constructed connection for `a4:34:f1:00:11:22`. -/
def gattFresh : WarbleGatt_Win10 :=
  WarbleGatt_Win10.new "a4:34:f1:00:11:22".toList BluetoothAddressType.Random

/-- A freshly constructed connection for `a4:34:f1:00:11:23`, which no
transport above resolves. -/
def gattUnknown : WarbleGatt_Win10 :=
  WarbleGatt_Win10.new "a4:34:f1:00:11:23".toList BluetoothAddressType.Random

/-- The state and trace of an operation that did not throw. -/
def completed (r : Option (WarbleGatt_Win10 × List Event)) (s : WarbleGatt_Win10) :
    WarbleGatt_Win10 × List Event :=
  r.getD (s, [])

/-- The fresh connection after a successful `connect_async` on the heart-rate
device (context 1, handler 2). -/
def gattConnected : WarbleGatt_Win10 :=
  (completed (gattFresh.connect_async (transportWith heartRateDevice) 1 2) gattFresh).1

/-- The connected connection after the transport has fired a disconnect: the
device is held, its status is `Disconnected`, the handles are still there. -/
def gattDropped : WarbleGatt_Win10 :=
  (gattConnected.ConnectionStatusChanged BluetoothConnectionStatus.Disconnected).1

/-- The handle built for the characteristic `00002a37-…` of `heartRateService`. -/
def heartRateHandle : WarbleGattChar_Win10 :=
  WarbleGattChar_Win10.new { Uuid := 0x00002a3700001000800000805f9b34fb, AttributeHandle := 3 }

/-- A successful read answer of 256 bytes. -/
def readResult256 : GattReadResult :=
  { Status := GattCommunicationStatus.Success, Value := List.replicate 256 7 }

/-- The invariant of a connection between operations: without a device there
are no handles and no service records. -/
def WarbleGatt_Win10.emptyWithoutDevice (s : WarbleGatt_Win10) : Prop :=
  s.device = none → s.characteristics = [] ∧ s.services = ∅

/-- The fresh connection after `connect_async` (context 1, handler 2) on the
device whose second service fails its characteristic enumeration. -/
def gattAborted : WarbleGatt_Win10 × List Event :=
  completed (gattFresh.connect_async (transportWith halfFailingDevice) 1 2) gattFresh

instance (s : WarbleGatt_Win10) : Decidable s.emptyWithoutDevice := by
  unfold WarbleGatt_Win10.emptyWithoutDevice
  infer_instance


/-! ## Lemmas on association lists -/

theorem mapFind_append {κ ν : Type} [DecidableEq κ] (m n : List (κ × ν)) (k : κ) :
    mapFind (m ++ n) k = (mapFind m k <|> mapFind n k) := by
  induction m with
  | nil => simp [mapFind]
  | cons p m ih =>
    obtain ⟨k', v⟩ := p
    by_cases h : k' = k <;> simp [mapFind, h, ih]

theorem mapFind_mapEmplace {κ ν : Type} [DecidableEq κ] (m : List (κ × ν)) (k k' : κ) (v : ν) :
    mapFind (mapEmplace m k v) k' = (mapFind m k' <|> if k = k' then some v else none) := by
  unfold mapEmplace
  cases hk : mapFind m k with
  | none => simp [mapFind_append, mapFind]
  | some x =>
    by_cases h : k = k'
    · subst h; simp [hk]
    · simp [h]

theorem mapFind_mapSet {κ ν : Type} [DecidableEq κ] (m : List (κ × ν)) (k k' : κ) (v : ν) :
    mapFind (mapSet m k v) k' = if k = k' then (mapFind m k').map (fun _ => v) else mapFind m k' := by
  induction m with
  | nil => simp [mapSet, mapFind]
  | cons p m ih =>
    obtain ⟨k0, v0⟩ := p
    by_cases h0 : k0 = k
    · subst h0
      by_cases h : k0 = k' <;> simp [mapSet, mapFind, h]
    · by_cases h : k0 = k'
      · subst h
        simp [mapSet, mapFind, h0, Ne.symm h0]
      · simp [mapSet, mapFind, h0, h, ih]

/-! ## Lemmas on the scanner -/

theorem addServiceUuids_service_uuids (record : BleatScanPrivateData) (uuids : List Guid) :
    (addServiceUuids record uuids).service_uuids
      = record.service_uuids ∪ uuids.toFinset.image uuidText := by
  unfold addServiceUuids
  induction uuids generalizing record with
  | nil => simp
  | cons g gs ih =>
    rw [List.foldl_cons, ih]
    ext u
    simp only [Finset.mem_union, Finset.mem_insert, Finset.mem_image, List.mem_toFinset,
      List.mem_cons]
    constructor
    · rintro ((h | h) | ⟨x, hx, rfl⟩)
      · exact Or.inr ⟨g, Or.inl rfl, h.symm⟩
      · exact Or.inl h
      · exact Or.inr ⟨x, Or.inr hx, rfl⟩
    · rintro (h | ⟨x, rfl | hx, rfl⟩)
      · exact Or.inl (Or.inr h)
      · exact Or.inl (Or.inl rfl)
      · exact Or.inr ⟨x, hx, rfl⟩

theorem addServiceUuids_manufacturer_data (record : BleatScanPrivateData) (uuids : List Guid) :
    (addServiceUuids record uuids).manufacturer_data = record.manufacturer_data := by
  unfold addServiceUuids
  induction uuids generalizing record with
  | nil => rfl
  | cons g gs ih => rw [List.foldl_cons, ih]

theorem addManufacturerData_service_uuids (record : BleatScanPrivateData)
    (sections : List BluetoothLEManufacturerData) :
    (addManufacturerData record sections).service_uuids = record.service_uuids := by
  unfold addManufacturerData
  induction sections generalizing record with
  | nil => rfl
  | cons d ds ih => rw [List.foldl_cons, ih]

/-- The frame's contribution to the service-UUID set of address `addr`. -/
theorem serviceUuidsOf_Received (s : BleatScanner_Win10)
    (f : BluetoothLEAdvertisementReceivedEventArgs) (addr : Nat) :
    serviceUuidsOf (Received s f).1 addr
      = serviceUuidsOf s addr ∪
        (if f.BluetoothAddress = addr
            ∧ f.AdvertisementType ≠ BluetoothLEAdvertisementType.ScanResponse
          then f.Advertisement.ServiceUuids.toFinset.image uuidText else ∅) := by
  unfold Received serviceUuidsOf
  by_cases hty : f.AdvertisementType = BluetoothLEAdvertisementType.ScanResponse
  · cases hh : s.scan_result_handler <;> cases hf : mapFind s.seen_devices f.BluetoothAddress <;>
      by_cases ha : f.BluetoothAddress = addr <;>
      simp [hty, hh, hf, ha, mapFind_mapSet, mapFind_mapEmplace,
        addManufacturerData_service_uuids, BleatScanPrivateData.empty]
    all_goals (try subst ha; simp [hf, addManufacturerData_service_uuids, addServiceUuids_service_uuids])
  · cases hf : mapFind s.seen_devices f.BluetoothAddress <;>
      by_cases ha : f.BluetoothAddress = addr <;>
      simp [hty, hf, ha, mapFind_mapSet, mapFind_mapEmplace,
        addServiceUuids_service_uuids, BleatScanPrivateData.empty]
    all_goals (try subst ha; simp [hf, addManufacturerData_service_uuids, addServiceUuids_service_uuids])

theorem serviceUuidsOf_runFrames (s : BleatScanner_Win10)
    (frames : List BluetoothLEAdvertisementReceivedEventArgs) (addr : Nat) :
    serviceUuidsOf (runFrames s frames) addr = serviceUuidsOf s addr ∪ advertisedUuids frames addr := by
  unfold runFrames
  induction frames generalizing s with
  | nil => simp [advertisedUuids]
  | cons f fs ih =>
    rw [List.foldl_cons, ih, serviceUuidsOf_Received]
    ext u
    simp only [advertisedUuids, Finset.mem_union, Finset.mem_biUnion, Finset.mem_filter,
      List.mem_toFinset, List.mem_cons]
    constructor
    · rintro ((h | h) | ⟨x, ⟨hx, hc⟩, hu⟩)
      · exact Or.inl h
      · split_ifs at h with hc
        · exact Or.inr ⟨f, ⟨Or.inl rfl, hc⟩, h⟩
        · simp at h
      · exact Or.inr ⟨x, ⟨Or.inr hx, hc⟩, hu⟩
    · rintro (h | ⟨x, ⟨rfl | hx, hc⟩, hu⟩)
      · exact Or.inl (Or.inl h)
      · exact Or.inl (Or.inr (by rw [if_pos hc]; exact hu))
      · exact Or.inr ⟨x, ⟨hx, hc⟩, hu⟩

theorem mapFind_addManufacturerData (record : BleatScanPrivateData)
    (sections : List BluetoothLEManufacturerData) (id : Nat) :
    mapFind (addManufacturerData record sections).manufacturer_data id
      = (mapFind record.manufacturer_data id <|>
          (sections.find? (fun d => d.CompanyId = id)).map
            (fun d => { value := d.Data, value_size := d.Data.length })) := by
  unfold addManufacturerData
  induction sections generalizing record with
  | nil => simp
  | cons d ds ih =>
    rw [List.foldl_cons, ih]
    simp only [mapFind_mapEmplace]
    by_cases h : d.CompanyId = id
    · cases hm : mapFind record.manufacturer_data id <;> simp [h, List.find?_cons]
    · cases hm : mapFind record.manufacturer_data id <;> simp [h, List.find?_cons]

/-! ## Scanner theorems -/

/-- C1 fails as stated: in the second scan session of a scanner (after
`stop()` and `start()`) that processes one advertisement frame carrying
`0000180f-…`, the set stored for the device is not the union over the frames
of this session: it still holds `0000180d-…` from the first session. -/
theorem second_session_set_counterexample :
    ¬ (serviceUuidsOf (runFrames scannerSecondSession [frameAdvBattery]) 0xa434f1001122
        = advertisedUuids [frameAdvBattery] 0xa434f1001122) := by
  decide

/-- C1 as amended: from any scanner state, after the `Received` handler has
processed any sequence of frames the service-UUID set stored for an address
is the set stored before the sequence together with the union of the UUID
texts carried by the non-scan-response frames of that address; it is that
union alone when the scanner had no device record at the start; it depends
only on the set of frames (not on order or repetition); and a single
scan-response frame, or a frame of another address, leaves the set of that
address as it was. -/
theorem service_uuids_accumulate_union_of_advertised (s : BleatScanner_Win10)
    (frames : List BluetoothLEAdvertisementReceivedEventArgs) (addr : Nat) :
    serviceUuidsOf (runFrames s frames) addr
        = serviceUuidsOf s addr ∪ advertisedUuids frames addr
    ∧ (s.seen_devices = [] →
        serviceUuidsOf (runFrames s frames) addr = advertisedUuids frames addr)
    ∧ (∀ frames2 : List BluetoothLEAdvertisementReceivedEventArgs,
        frames2.toFinset = frames.toFinset →
        serviceUuidsOf (runFrames s frames2) addr = serviceUuidsOf (runFrames s frames) addr)
    ∧ (∀ (st : BleatScanner_Win10) (f : BluetoothLEAdvertisementReceivedEventArgs),
        (f.AdvertisementType = BluetoothLEAdvertisementType.ScanResponse
          ∨ f.BluetoothAddress ≠ addr) →
        serviceUuidsOf (Received st f).1 addr = serviceUuidsOf st addr) := by
  refine ⟨serviceUuidsOf_runFrames s frames addr, fun hs => ?_, ?_, ?_⟩
  · have h0 : serviceUuidsOf s addr = ∅ := by simp [serviceUuidsOf, hs, mapFind]
    rw [serviceUuidsOf_runFrames, h0, Finset.empty_union]
  · intro frames2 h2
    rw [serviceUuidsOf_runFrames, serviceUuidsOf_runFrames]
    simp only [advertisedUuids, h2]
  · intro st f hf
    rw [serviceUuidsOf_Received]
    rcases hf with hf | hf
    · simp [hf]
    · simp [hf]

/-- Witness for C1 as amended: the second session of a scanner, with the
frames advertisement (`0000180f-…`), scan response, advertisement again; the
set holds the UUID of the first session and the one of this session. -/
theorem service_uuids_accumulate_union_of_advertised_witness :
    serviceUuidsOf scannerSecondSession 0xa434f1001122
        = {"0000180d-0000-1000-8000-00805f9b34fb".toList}
    ∧ serviceUuidsOf
          (runFrames scannerSecondSession [frameAdvBattery, frameScanRspF1, frameAdvBattery])
          0xa434f1001122
        = {"0000180d-0000-1000-8000-00805f9b34fb".toList,
            "0000180f-0000-1000-8000-00805f9b34fb".toList}
    ∧ serviceUuidsOf
          (runFrames BleatScanner_Win10.new [frameAdvHeartRate, frameScanRspF1, frameAdvHeartRate])
          0xa434f1001122
        = {"0000180d-0000-1000-8000-00805f9b34fb".toList}
    ∧ (serviceUuidsOf
          (runFrames scannerSecondSession [frameAdvBattery, frameScanRspF1, frameAdvBattery])
          0xa434f1001122
        = serviceUuidsOf scannerSecondSession 0xa434f1001122
          ∪ advertisedUuids [frameAdvBattery, frameScanRspF1, frameAdvBattery] 0xa434f1001122
      ∧ (scannerSecondSession.seen_devices = [] →
          serviceUuidsOf
              (runFrames scannerSecondSession [frameAdvBattery, frameScanRspF1, frameAdvBattery])
              0xa434f1001122
            = advertisedUuids [frameAdvBattery, frameScanRspF1, frameAdvBattery] 0xa434f1001122)
      ∧ (∀ frames2 : List BluetoothLEAdvertisementReceivedEventArgs,
          frames2.toFinset = [frameAdvBattery, frameScanRspF1, frameAdvBattery].toFinset →
          serviceUuidsOf (runFrames scannerSecondSession frames2) 0xa434f1001122
            = serviceUuidsOf
                (runFrames scannerSecondSession
                  [frameAdvBattery, frameScanRspF1, frameAdvBattery]) 0xa434f1001122)
      ∧ (∀ (st : BleatScanner_Win10) (f : BluetoothLEAdvertisementReceivedEventArgs),
          (f.AdvertisementType = BluetoothLEAdvertisementType.ScanResponse
            ∨ f.BluetoothAddress ≠ 0xa434f1001122) →
          serviceUuidsOf (Received st f).1 0xa434f1001122 = serviceUuidsOf st 0xa434f1001122)) :=
  ⟨by decide, by decide, by decide,
    service_uuids_accumulate_union_of_advertised scannerSecondSession
      [frameAdvBattery, frameScanRspF1, frameAdvBattery] 0xa434f1001122⟩

/-- C2: with a handler registered, a scan-response frame makes the handler
receive exactly one result, and looking a company identifier up in the
manufacturer data of that result gives the payload of the first section of
this very frame carrying that identifier, and nothing when the frame has no
such section, whatever the record held before; the record stored for the
device holds the same mapping. -/
theorem scan_response_replaces_manufacturer_data (s : BleatScanner_Win10)
    (f : BluetoothLEAdvertisementReceivedEventArgs) (handler : Nat)
    (hh : s.scan_result_handler = some handler)
    (hty : f.AdvertisementType = BluetoothLEAdvertisementType.ScanResponse) :
    ∃ call : ScanHandlerCall, (Received s f).2 = [call]
      ∧ (∀ id : Nat, mapFind call.result.private_data.manufacturer_data id
          = (f.Advertisement.ManufacturerData.find? (fun d => d.CompanyId = id)).map
              (fun d => { value := d.Data, value_size := d.Data.length }))
      ∧ manufacturerDataOf (Received s f).1 f.BluetoothAddress
          = call.result.private_data.manufacturer_data := by
  unfold Received manufacturerDataOf
  simp only [hty, hh, ne_eq, not_true_eq_false, if_false]
  refine ⟨_, rfl, ?_, ?_⟩
  · intro id
    simp [mapFind_addManufacturerData, mapFind]
  · cases hf : mapFind s.seen_devices f.BluetoothAddress <;>
      simp [mapFind_mapSet, mapFind_mapEmplace, hf]

/-- Witness for C2: F1 = 1 ↦ "a" was handled, then F2 = 2 ↦ "b" arrives; the
result delivered for F2 shows only 2 ↦ "b". -/
theorem scan_response_replaces_manufacturer_data_witness :
    (Received scannerWithHandler frameScanRspF1).1.scan_result_handler = some 7
    ∧ frameScanRspF2.AdvertisementType = BluetoothLEAdvertisementType.ScanResponse
    ∧ manufacturerDataOf (Received scannerWithHandler frameScanRspF1).1 0xa434f1001122
        = [(1, { value := [97], value_size := 1 })]
    ∧ ((Received (Received scannerWithHandler frameScanRspF1).1 frameScanRspF2).2.map
        (fun c => c.result.private_data.manufacturer_data))
        = [[(2, { value := [98], value_size := 1 })]]
    ∧ ∃ call : ScanHandlerCall,
        (Received (Received scannerWithHandler frameScanRspF1).1 frameScanRspF2).2 = [call]
        ∧ (∀ id : Nat, mapFind call.result.private_data.manufacturer_data id
            = (frameScanRspF2.Advertisement.ManufacturerData.find? (fun d => d.CompanyId = id)).map
                (fun d => { value := d.Data, value_size := d.Data.length }))
        ∧ manufacturerDataOf (Received (Received scannerWithHandler frameScanRspF1).1
              frameScanRspF2).1 frameScanRspF2.BluetoothAddress
            = call.result.private_data.manufacturer_data :=
  ⟨by decide, by decide, by decide, by decide,
    scan_response_replaces_manufacturer_data (Received scannerWithHandler frameScanRspF1).1
      frameScanRspF2 7 (by decide) (by decide)⟩

/-- C3: processing one frame invokes the scan handler exactly once when the
frame is a scan response and a handler is registered, and not at all
otherwise; an invocation goes to the registered handler with the registered
context. The handler function is total: no frame makes it fail. -/
theorem scan_handler_invoked_iff_scan_response (s : BleatScanner_Win10)
    (f : BluetoothLEAdvertisementReceivedEventArgs) :
    (Received s f).2.length
        = (if f.AdvertisementType = BluetoothLEAdvertisementType.ScanResponse
              ∧ s.scan_result_handler ≠ none then 1 else 0)
    ∧ (f.AdvertisementType ≠ BluetoothLEAdvertisementType.ScanResponse → (Received s f).2 = [])
    ∧ (s.scan_result_handler = none → (Received s f).2 = [])
    ∧ (∀ c ∈ (Received s f).2,
        s.scan_result_handler = some c.handler ∧ c.context = s.scan_result_context) := by
  unfold Received
  by_cases hty : f.AdvertisementType = BluetoothLEAdvertisementType.ScanResponse <;>
    cases hh : s.scan_result_handler <;> simp [hty, hh]

/-- C4 fails as stated: after an advertisement frame and `stop()` the record
table still holds the device, and the next session starts with its
service-UUID set not empty. -/
theorem stop_keeps_records_counterexample :
    ¬ ((runFrames BleatScanner_Win10.new.start [frameAdvHeartRate]).stop.seen_devices = []
        ∧ serviceUuidsOf (runFrames BleatScanner_Win10.new.start [frameAdvHeartRate]).stop.start
            0xa434f1001122 = ∅) := by
  decide

/-- C4 as amended: `stop()` leaves the per-device record table as it is, so
after `stop()` and `start()` every device still has the service-UUID set and
the manufacturer data it had, and the frames of the next session add to that
set. -/
theorem stop_leaves_records_unchanged (s : BleatScanner_Win10)
    (frames : List BluetoothLEAdvertisementReceivedEventArgs) (addr : Nat) :
    s.stop.seen_devices = s.seen_devices
    ∧ serviceUuidsOf s.stop.start addr = serviceUuidsOf s addr
    ∧ manufacturerDataOf s.stop.start addr = manufacturerDataOf s addr
    ∧ serviceUuidsOf (runFrames s.stop.start frames) addr
        = serviceUuidsOf s addr ∪ advertisedUuids frames addr := by
  refine ⟨rfl, rfl, rfl, ?_⟩
  rw [serviceUuidsOf_runFrames]
  rfl

/-! ## Lemmas on hexadecimal text -/

theorem hexVal_hexDigitLower : ∀ n : Nat, n < 16 → hexVal (hexDigitLower n) = some n := by
  decide

theorem hexVal_toUpper_hexDigitLower :
    ∀ n : Nat, n < 16 → hexVal (hexDigitLower n).toUpper = some n := by
  decide

theorem hexDigitLower_mem : ∀ n : Nat, n < 16 → hexDigitLower n ∈ "0123456789abcdef".toList := by
  decide

theorem hexVal_isSome_not_special {c : Char} {d : Nat} (h : hexVal c = some d) :
    isspace c = false ∧ c ≠ '-' ∧ c ≠ '+' ∧ c ≠ 'x' ∧ c ≠ 'X' ∧ c ≠ Char.ofNat 0 := by
  have e1 : hexVal ' ' = none := by decide
  have e2 : hexVal '\t' = none := by decide
  have e3 : hexVal '\n' = none := by decide
  have e4 : hexVal (Char.ofNat 11) = none := by decide
  have e5 : hexVal (Char.ofNat 12) = none := by decide
  have e6 : hexVal '\r' = none := by decide
  have e7 : hexVal '-' = none := by decide
  have e8 : hexVal '+' = none := by decide
  have e9 : hexVal 'x' = none := by decide
  have e10 : hexVal 'X' = none := by decide
  have e11 : hexVal (Char.ofNat 0) = none := by decide
  have key : ∀ c0 : Char, hexVal c0 = none → c ≠ c0 := by
    intro c0 h0 hc
    rw [hc, h0] at h
    cases h
  refine ⟨?_, key _ e7, key _ e8, key _ e9, key _ e10, key _ e11⟩
  simp only [isspace, Bool.or_eq_false_iff, decide_eq_false_iff_not]
  exact ⟨⟨⟨⟨⟨key _ e1, key _ e2⟩, key _ e3⟩, key _ e4⟩, key _ e5⟩, key _ e6⟩

theorem hexPrefix_of_forall₂ {cs : Text} {ds : List Nat}
    (h : List.Forall₂ (fun c d => hexVal c = some d) cs ds) : hexPrefix cs = ds := by
  induction h with
  | nil => rfl
  | cons hcd _ ih => simp [hexPrefix, hcd, ih]

theorem c_str_of_forall₂ {cs : Text} {ds : List Nat}
    (h : List.Forall₂ (fun c d => hexVal c = some d) cs ds) : c_str cs = cs := by
  unfold c_str
  induction h with
  | nil => rfl
  | cons hcd _ ih =>
    have hne := (hexVal_isSome_not_special hcd).2.2.2.2.2
    rw [List.takeWhile_cons, if_pos (by simpa using hne), ih]

/-- Library function `stoull` on a non-empty run of hex digits that fits 64 bits. -/
theorem stoull16_of_forall₂ {cs : Text} {ds : List Nat}
    (h : List.Forall₂ (fun c d => hexVal c = some d) cs ds) (hne : ds ≠ [])
    (hv : ds.foldl (fun acc d => 16 * acc + d) 0 < 2 ^ 64) :
    stoull16 cs = some (ds.foldl (fun acc d => 16 * acc + d) 0) := by
  have hp := hexPrefix_of_forall₂ h
  cases h with
  | nil => exact absurd rfl hne
  | cons hcd htl =>
    rename_i c d t dt
    obtain ⟨hsp, hm, hpl, -, -, -⟩ := hexVal_isSome_not_special hcd
    have h1 : (c :: t).dropWhile isspace = c :: t := by
      rw [List.dropWhile_cons, if_neg (by simp [hsp])]
    have h2 : stripSign (c :: t) = (false, c :: t) := by
      simp [stripSign, hm, hpl]
    have h3 : stripHexPrefix (c :: t) = c :: t := by
      cases htl with
      | nil => rfl
      | cons hx htl2 =>
        obtain ⟨-, -, -, hx1, hx2, -⟩ := hexVal_isSome_not_special hx
        cases htl2 with
        | nil => rfl
        | cons _ _ => simp [stripHexPrefix, hx1, hx2]
    unfold stoull16
    simp only [h1, h2, h3, hp]
    rw [if_neg hne, if_neg (by omega)]
    simp

theorem byteOf_lt (raw i : Nat) : byteOf raw i < 256 := by
  unfold byteOf
  exact Nat.mod_lt _ (by norm_num)

/-- The twelve hex digits left of `mac_str` once its colons are erased, through
a digit rendering `f` that `hexVal` reads back, are read by `stoull` as the
48-bit address. -/
theorem stoull16_mac_digits (f : Nat → Char) (hf : ∀ n : Nat, n < 16 → hexVal (f n) = some n)
    (a : Nat) (ha : a < 2 ^ 48) :
    stoull16 (c_str
      [f (byteOf a 5 / 16), f (byteOf a 5 % 16), f (byteOf a 4 / 16), f (byteOf a 4 % 16),
        f (byteOf a 3 / 16), f (byteOf a 3 % 16), f (byteOf a 2 / 16), f (byteOf a 2 % 16),
        f (byteOf a 1 / 16), f (byteOf a 1 % 16), f (byteOf a 0 / 16), f (byteOf a 0 % 16)])
      = some a := by
  have hd : ∀ i : Nat, byteOf a i / 16 < 16 := fun i => by
    have := byteOf_lt a i
    omega
  have hm : ∀ i : Nat, byteOf a i % 16 < 16 := fun i => Nat.mod_lt _ (by norm_num)
  have hF : List.Forall₂ (fun c d => hexVal c = some d)
      [f (byteOf a 5 / 16), f (byteOf a 5 % 16), f (byteOf a 4 / 16), f (byteOf a 4 % 16),
        f (byteOf a 3 / 16), f (byteOf a 3 % 16), f (byteOf a 2 / 16), f (byteOf a 2 % 16),
        f (byteOf a 1 / 16), f (byteOf a 1 % 16), f (byteOf a 0 / 16), f (byteOf a 0 % 16)]
      [byteOf a 5 / 16, byteOf a 5 % 16, byteOf a 4 / 16, byteOf a 4 % 16,
        byteOf a 3 / 16, byteOf a 3 % 16, byteOf a 2 / 16, byteOf a 2 % 16,
        byteOf a 1 / 16, byteOf a 1 % 16, byteOf a 0 / 16, byteOf a 0 % 16] := by
    refine List.Forall₂.cons (hf _ (hd 5)) (List.Forall₂.cons (hf _ (hm 5))
      (List.Forall₂.cons (hf _ (hd 4)) (List.Forall₂.cons (hf _ (hm 4))
      (List.Forall₂.cons (hf _ (hd 3)) (List.Forall₂.cons (hf _ (hm 3))
      (List.Forall₂.cons (hf _ (hd 2)) (List.Forall₂.cons (hf _ (hm 2))
      (List.Forall₂.cons (hf _ (hd 1)) (List.Forall₂.cons (hf _ (hm 1))
      (List.Forall₂.cons (hf _ (hd 0)) (List.Forall₂.cons (hf _ (hm 0))
      List.Forall₂.nil)))))))))))
  have hval : List.foldl (fun acc d => 16 * acc + d) 0
      [byteOf a 5 / 16, byteOf a 5 % 16, byteOf a 4 / 16, byteOf a 4 % 16,
        byteOf a 3 / 16, byteOf a 3 % 16, byteOf a 2 / 16, byteOf a 2 % 16,
        byteOf a 1 / 16, byteOf a 1 % 16, byteOf a 0 / 16, byteOf a 0 % 16] = a := by
    simp only [List.foldl, byteOf]
    norm_num
    omega
  rw [c_str_of_forall₂ hF, stoull16_of_forall₂ hF (by simp) (by rw [hval]; omega), hval]

/-- The five `erase` calls take the colons out of a seventeen-character text. -/
theorem mac_ulong_of_groups (c1 c2 c3 c4 c5 c6 c7 c8 c9 c10 c11 c12 s1 s2 s3 s4 s5 : Char) :
    mac_ulong [c1, c2, s1, c3, c4, s2, c5, c6, s3, c7, c8, s4, c9, c10, s5, c11, c12]
      = stoull16 (c_str [c1, c2, c3, c4, c5, c6, c7, c8, c9, c10, c11, c12]) := by
  simp [mac_ulong, erase]


theorem mac_ulong_mac_str (a : Nat) (ha : a < 2 ^ 48) : mac_ulong (mac_str a) = some a := by
  have h := stoull16_mac_digits hexDigitLower hexVal_hexDigitLower a ha
  simp only [mac_str, fmt02x, List.cons_append, List.nil_append, List.append_assoc]
  rw [mac_ulong_of_groups]
  exact h

theorem mac_ulong_mac_str_upper (a : Nat) (ha : a < 2 ^ 48) :
    mac_ulong ((mac_str a).map Char.toUpper) = some a := by
  have h := stoull16_mac_digits (fun n => (hexDigitLower n).toUpper)
    hexVal_toUpper_hexDigitLower a ha
  simp only [mac_str, fmt02x, List.cons_append, List.nil_append, List.append_assoc,
    List.map_cons, List.map_nil]
  rw [mac_ulong_of_groups]
  exact h

theorem mac_str_colons (a i : Nat) (hi : i < 5) : (mac_str a)[3 * i + 2]? = some ':' := by
  simp only [mac_str, fmt02x, List.cons_append, List.nil_append, List.append_assoc]
  interval_cases i <;> rfl

theorem mac_str_groups (a i : Nat) (hi : i < 6) :
    ∃ (c1 c2 : Char) (hi lo : Nat),
      (mac_str a)[3 * i]? = some c1 ∧ (mac_str a)[3 * i + 1]? = some c2
      ∧ c1 ∈ "0123456789abcdef".toList ∧ c2 ∈ "0123456789abcdef".toList
      ∧ hexVal c1 = some hi ∧ hexVal c2 = some lo
      ∧ 16 * hi + lo = a / 256 ^ (5 - i) % 256 := by
  have hd : ∀ j : Nat, byteOf a j / 16 < 16 := fun j => by
    have := byteOf_lt a j
    omega
  have hm : ∀ j : Nat, byteOf a j % 16 < 16 := fun j => Nat.mod_lt _ (by norm_num)
  have hb : ∀ j : Nat, 16 * (byteOf a j / 16) + byteOf a j % 16 = a / 256 ^ j % 256 := fun j => by
    unfold byteOf
    omega
  have hdig : ∀ (j k : Nat), (mac_str a)[3 * k]? = some (hexDigitLower (byteOf a j / 16)) →
      (mac_str a)[3 * k + 1]? = some (hexDigitLower (byteOf a j % 16)) →
      ∃ (c1 c2 : Char) (hi lo : Nat),
        (mac_str a)[3 * k]? = some c1 ∧ (mac_str a)[3 * k + 1]? = some c2
        ∧ c1 ∈ "0123456789abcdef".toList ∧ c2 ∈ "0123456789abcdef".toList
        ∧ hexVal c1 = some hi ∧ hexVal c2 = some lo ∧ 16 * hi + lo = a / 256 ^ j % 256 :=
    fun j k h1 h2 => ⟨_, _, _, _, h1, h2, hexDigitLower_mem _ (hd j), hexDigitLower_mem _ (hm j),
      hexVal_hexDigitLower _ (hd j), hexVal_hexDigitLower _ (hm j), hb j⟩
  have hs : mac_str a =
      [hexDigitLower (byteOf a 5 / 16), hexDigitLower (byteOf a 5 % 16), ':',
        hexDigitLower (byteOf a 4 / 16), hexDigitLower (byteOf a 4 % 16), ':',
        hexDigitLower (byteOf a 3 / 16), hexDigitLower (byteOf a 3 % 16), ':',
        hexDigitLower (byteOf a 2 / 16), hexDigitLower (byteOf a 2 % 16), ':',
        hexDigitLower (byteOf a 1 / 16), hexDigitLower (byteOf a 1 % 16), ':',
        hexDigitLower (byteOf a 0 / 16), hexDigitLower (byteOf a 0 % 16)] := rfl
  interval_cases i
  · exact hdig 5 0 (by rw [hs]; rfl) (by rw [hs]; rfl)
  · exact hdig 4 1 (by rw [hs]; rfl) (by rw [hs]; rfl)
  · exact hdig 3 2 (by rw [hs]; rfl) (by rw [hs]; rfl)
  · exact hdig 2 3 (by rw [hs]; rfl) (by rw [hs]; rfl)
  · exact hdig 1 4 (by rw [hs]; rfl) (by rw [hs]; rfl)
  · exact hdig 0 5 (by rw [hs]; rfl) (by rw [hs]; rfl)

/-! ## GATT client theorems -/

/-- C10: for every 48-bit address the text rendered by the scanner has
seventeen characters; each of its six groups is two lowercase hex digits whose
value is the corresponding octet, most significant octet first, with a colon
after each of the first five groups; the conversion made by `connect_async`
(five `erase` calls and `stoull` in base 16) reads the text back as the
address, and reads the upper-cased text back as the same address. -/
theorem mac_text_round_trip (a : Nat) (ha : a < 2 ^ 48) :
    (mac_str a).length = 17
    ∧ (∀ i : Nat, i < 6 → ∃ (c1 c2 : Char) (hi lo : Nat),
        (mac_str a)[3 * i]? = some c1 ∧ (mac_str a)[3 * i + 1]? = some c2
        ∧ c1 ∈ "0123456789abcdef".toList ∧ c2 ∈ "0123456789abcdef".toList
        ∧ hexVal c1 = some hi ∧ hexVal c2 = some lo
        ∧ 16 * hi + lo = a / 256 ^ (5 - i) % 256)
    ∧ (∀ i : Nat, i < 5 → (mac_str a)[3 * i + 2]? = some ':')
    ∧ mac_ulong (mac_str a) = some a
    ∧ mac_ulong ((mac_str a).map Char.toUpper) = some a :=
  ⟨rfl, mac_str_groups a, mac_str_colons a, mac_ulong_mac_str a ha, mac_ulong_mac_str_upper a ha⟩

/-- Witness for C10: the address `a4:34:f1:00:11:22`. -/
theorem mac_text_round_trip_witness :
    0xa434f1001122 < 2 ^ 48
    ∧ mac_str 0xa434f1001122 = "a4:34:f1:00:11:22".toList
    ∧ mac_ulong "A4:34:F1:00:11:22".toList = some 0xa434f1001122
    ∧ ((mac_str 0xa434f1001122).length = 17
      ∧ (∀ i : Nat, i < 6 → ∃ (c1 c2 : Char) (hi lo : Nat),
          (mac_str 0xa434f1001122)[3 * i]? = some c1
          ∧ (mac_str 0xa434f1001122)[3 * i + 1]? = some c2
          ∧ c1 ∈ "0123456789abcdef".toList ∧ c2 ∈ "0123456789abcdef".toList
          ∧ hexVal c1 = some hi ∧ hexVal c2 = some lo
          ∧ 16 * hi + lo = 0xa434f1001122 / 256 ^ (5 - i) % 256)
      ∧ (∀ i : Nat, i < 5 → (mac_str 0xa434f1001122)[3 * i + 2]? = some ':')
      ∧ mac_ulong (mac_str 0xa434f1001122) = some 0xa434f1001122
      ∧ mac_ulong ((mac_str 0xa434f1001122).map Char.toUpper) = some 0xa434f1001122) :=
  ⟨by norm_num, by decide, by decide, mac_text_round_trip 0xa434f1001122 (by norm_num)⟩

/-- C5 fails as stated: on a freshly constructed connection (never connected)
with an observer registered, calling `disconnect()` twice in a row invokes the
observer twice, not once. -/
theorem disconnect_twice_counterexample :
    ¬ (observerInvocations
        (runDisconnects (gattFresh.on_disconnect 5 (some 9))
          [DisconnectEvent.caller, DisconnectEvent.caller]).2 = 1) := by
  decide

/-- C5 as amended: with an observer registered, the trace of a sequence of
disconnect events holds one invocation of the observer (with the registered
context and status 0) for every caller `disconnect()`, whatever the state of
the connection, and one for every transport-fired disconnect that arrives
while the device is held, that is before the first caller `disconnect()` of
the sequence; nothing else is in the trace. -/
theorem disconnect_observer_once_per_event (s : WarbleGatt_Win10) (handler : Nat)
    (hh : s.on_disconnect_handler = some handler) (es : List DisconnectEvent) :
    (runDisconnects s es).2
      = List.replicate
          (es.count DisconnectEvent.caller
            + (if s.device.isSome then
                (es.takeWhile (fun e => decide (e = DisconnectEvent.transport))).length
              else 0))
          (Event.disconnect_handler handler s.on_disconnect_context 0) := by
  induction es generalizing s with
  | nil => simp [runDisconnects]
  | cons e es ih =>
    cases e with
    | caller =>
      have h1 : s.disconnect = (s.cleanup,
          [Event.disconnect_handler handler s.on_disconnect_context 0]) := by
        simp [WarbleGatt_Win10.disconnect, hh]
      have h2 := ih s.cleanup hh
      simp only [runDisconnects, DisconnectEvent.apply, h1, h2]
      simp [WarbleGatt_Win10.cleanup, List.replicate_succ, Nat.add_comm]
    | transport =>
      cases hd : s.device with
      | none =>
        have h1 : s.ConnectionStatusChanged BluetoothConnectionStatus.Disconnected = (s, []) := by
          simp [WarbleGatt_Win10.ConnectionStatusChanged, hd]
        have h2 := ih s hh
        simp only [runDisconnects, DisconnectEvent.apply, h1, h2]
        simp [hd]
      | some d =>
        obtain ⟨s1, h1, hdev, hh1, hc1⟩ : ∃ s1 : WarbleGatt_Win10,
            s.ConnectionStatusChanged BluetoothConnectionStatus.Disconnected
              = (s1, [Event.disconnect_handler handler s.on_disconnect_context 0])
            ∧ s1.device.isSome = true ∧ s1.on_disconnect_handler = some handler
            ∧ s1.on_disconnect_context = s.on_disconnect_context :=
          ⟨(s.ConnectionStatusChanged BluetoothConnectionStatus.Disconnected).1,
            by simp [WarbleGatt_Win10.ConnectionStatusChanged, hd, hh],
            by simp [WarbleGatt_Win10.ConnectionStatusChanged, hd, hh],
            by simp [WarbleGatt_Win10.ConnectionStatusChanged, hd, hh],
            by simp [WarbleGatt_Win10.ConnectionStatusChanged, hd, hh]⟩
        have h2 := ih s1 hh1
        simp only [runDisconnects, DisconnectEvent.apply, h1, h2, hdev, hc1]
        rw [List.singleton_append, ← List.replicate_succ]
        congr 1

/-- Witness for C5 as amended: `disconnect()` twice on a fresh connection
with observer 9 gives two invocations. -/
theorem disconnect_observer_once_per_event_witness :
    (gattFresh.on_disconnect 5 (some 9)).on_disconnect_handler = some 9
    ∧ (runDisconnects (gattFresh.on_disconnect 5 (some 9))
          [DisconnectEvent.caller, DisconnectEvent.caller]).2
        = List.replicate
            ([DisconnectEvent.caller, DisconnectEvent.caller].count DisconnectEvent.caller
              + (if (gattFresh.on_disconnect 5 (some 9)).device.isSome then
                  ([DisconnectEvent.caller, DisconnectEvent.caller].takeWhile
                    (fun e => decide (e = DisconnectEvent.transport))).length
                else 0))
            (Event.disconnect_handler 9 (gattFresh.on_disconnect 5 (some 9)).on_disconnect_context
              0) :=
  ⟨rfl, disconnect_observer_once_per_event (gattFresh.on_disconnect 5 (some 9)) 9 rfl
    [DisconnectEvent.caller, DisconnectEvent.caller]⟩

/-! ### Lemmas on `connect_async` -/

theorem discover_fields (s : WarbleGatt_Win10) (device : BluetoothLEDevice) (trace : List Event)
    (context handler : Nat) :
    (discover s device trace context handler).1.device = s.device
    ∧ (discover s device trace context handler).1.mac = s.mac
    ∧ (discover s device trace context handler).1.addr_type = s.addr_type
    ∧ (discover s device trace context handler).1.on_disconnect_handler = s.on_disconnect_handler
    ∧ (discover s device trace context handler).1.on_disconnect_context
        = s.on_disconnect_context := by
  unfold discover
  simp only
  split_ifs <;> exact ⟨rfl, rfl, rfl, rfl, rfl⟩

/-- The ways `connect_async` can end without throwing: the device was not
found and nothing changed, or the enumeration ran on a held or resolved device. -/
theorem connect_async_cases
    (resolve : Nat → BluetoothAddressType → Option BluetoothLEDevice)
    (s : WarbleGatt_Win10) (context handler : Nat) (r : WarbleGatt_Win10 × List Event)
    (hrun : s.connect_async resolve context handler = some r) :
    (∃ device, s.device = some device ∧ r = discover s device [] context handler)
    ∨ (∃ a, s.device = none ∧ mac_ulong s.mac = some a ∧ resolve a s.addr_type = none
        ∧ r = (s, [Event.transport (TransportCall.FromBluetoothAddressAsync a s.addr_type),
            Event.connect_handler handler context (some (ErrorMessage.what
              "Failed to discover device (FromBluetoothAddressAsync returned nullptr)"))]))
    ∨ (∃ a device s1, s.device = none ∧ mac_ulong s.mac = some a
        ∧ resolve a s.addr_type = some device
        ∧ s1.device = some device ∧ s1.mac = s.mac ∧ s1.addr_type = s.addr_type
        ∧ s1.characteristics = s.characteristics ∧ s1.services = s.services
        ∧ s1.on_disconnect_handler = s.on_disconnect_handler
        ∧ s1.on_disconnect_context = s.on_disconnect_context
        ∧ r = discover s1 device
            [Event.transport (TransportCall.FromBluetoothAddressAsync a s.addr_type)]
            context handler) := by
  unfold WarbleGatt_Win10.connect_async at hrun
  cases hd : s.device with
  | some device =>
    simp only [hd, Option.some.injEq] at hrun
    exact Or.inl ⟨device, rfl, hrun.symm⟩
  | none =>
    cases hm : mac_ulong s.mac with
    | none => simp [hd, hm] at hrun
    | some a =>
      cases hr : resolve a s.addr_type with
      | none =>
        simp only [hd, hm, hr, Option.some.injEq] at hrun
        exact Or.inr (Or.inl ⟨a, rfl, rfl, hr, hrun.symm⟩)
      | some device =>
        simp only [hd, hm, hr, Option.some.injEq] at hrun
        exact Or.inr (Or.inr ⟨a, device, { s with device := some device }, rfl, rfl, hr, rfl, rfl,
          rfl, rfl, rfl, rfl, rfl, hrun.symm⟩)

theorem connect_async_preserves
    (resolve : Nat → BluetoothAddressType → Option BluetoothLEDevice)
    (s : WarbleGatt_Win10) (context handler : Nat) (r : WarbleGatt_Win10 × List Event)
    (hrun : s.connect_async resolve context handler = some r) (hinv : s.emptyWithoutDevice) :
    r.1.emptyWithoutDevice ∧ r.1.mac = s.mac ∧ r.1.addr_type = s.addr_type := by
  rcases connect_async_cases resolve s context handler r hrun with
    ⟨device, hd, rfl⟩ | ⟨a, hd, -, -, rfl⟩ | ⟨a, device, s1, hd, -, -, h1, h2, h3, -, -, -, -, rfl⟩
  · obtain ⟨e1, e2, e3, -, -⟩ := discover_fields s device [] context handler
    refine ⟨fun h => ?_, e2, e3⟩
    rw [e1, hd] at h
    cases h
  · exact ⟨hinv, rfl, rfl⟩
  · obtain ⟨e1, e2, e3, -, -⟩ := discover_fields s1 device
      [Event.transport (TransportCall.FromBluetoothAddressAsync a s.addr_type)] context handler
    refine ⟨fun h => ?_, e2.trans h2, e3.trans h3⟩
    rw [e1, h1] at h
    cases h

theorem GattOp.apply_preserves (s : WarbleGatt_Win10) (op : GattOp) (hinv : s.emptyWithoutDevice) :
    (op.apply s).emptyWithoutDevice ∧ (op.apply s).mac = s.mac
    ∧ (op.apply s).addr_type = s.addr_type := by
  cases op with
  | connect_async resolve context handler =>
    cases hrun : s.connect_async resolve context handler with
    | none =>
      have e : (GattOp.connect_async resolve context handler).apply s = s := by
        simp only [GattOp.apply, hrun]
      rw [e]
      exact ⟨hinv, rfl, rfl⟩
    | some r =>
      have e : (GattOp.connect_async resolve context handler).apply s = r.1 := by
        simp only [GattOp.apply, hrun]
      rw [e]
      exact connect_async_preserves resolve s context handler r hrun hinv
  | disconnect =>
    have e : GattOp.disconnect.apply s = s.cleanup := by
      simp only [GattOp.apply, WarbleGatt_Win10.disconnect]
      cases s.on_disconnect_handler <;> rfl
    rw [e]
    exact ⟨fun _ => ⟨rfl, rfl⟩, rfl, rfl⟩
  | on_disconnect context handler => exact ⟨hinv, rfl, rfl⟩
  | ConnectionStatusChanged status =>
    cases hd : s.device with
    | none =>
      have e : (GattOp.ConnectionStatusChanged status).apply s = s := by
        simp only [GattOp.apply, WarbleGatt_Win10.ConnectionStatusChanged, hd]
      rw [e]
      exact ⟨hinv, rfl, rfl⟩
    | some device =>
      have e : ((GattOp.ConnectionStatusChanged status).apply s).device.isSome = true
          ∧ ((GattOp.ConnectionStatusChanged status).apply s).mac = s.mac
          ∧ ((GattOp.ConnectionStatusChanged status).apply s).addr_type = s.addr_type := by
        simp only [GattOp.apply, WarbleGatt_Win10.ConnectionStatusChanged, hd]
        cases status <;> cases s.on_disconnect_handler <;> exact ⟨rfl, rfl, rfl⟩
      exact ⟨fun h => by rw [h] at e; simp at e, e.2.1, e.2.2⟩

theorem runOps_preserves (ops : List GattOp) (s : WarbleGatt_Win10) (hinv : s.emptyWithoutDevice) :
    (runOps s ops).emptyWithoutDevice ∧ (runOps s ops).mac = s.mac
    ∧ (runOps s ops).addr_type = s.addr_type := by
  unfold runOps
  induction ops generalizing s with
  | nil => exact ⟨hinv, rfl, rfl⟩
  | cons op ops ih =>
    obtain ⟨h1, h2, h3⟩ := GattOp.apply_preserves s op hinv
    obtain ⟨i1, i2, i3⟩ := ih (op.apply s) h1
    exact ⟨i1, i2.trans h2, i3.trans h3⟩

/-- C8: take a connection reached from its constructor by any sequence of
`connect_async`, `disconnect`, `on_disconnect` calls and connection-status
events (each run to completion) that holds no device. If its address text
converts and the transport resolves that address to null, `connect_async`
issues the one resolution call and nothing else on the transport, invokes the
completion handler once with the non-null text "Failed to discover device
(FromBluetoothAddressAsync returned nullptr)", changes nothing, and the
characteristic table, the service set and the device handle are empty. -/
theorem connect_async_device_not_found (mac : Text) (addr_type : BluetoothAddressType)
    (ops : List GattOp) (resolve : Nat → BluetoothAddressType → Option BluetoothLEDevice)
    (context handler a : Nat)
    (hdev : (runOps (WarbleGatt_Win10.new mac addr_type) ops).device = none)
    (hmac : mac_ulong mac = some a) (hres : resolve a addr_type = none) :
    (runOps (WarbleGatt_Win10.new mac addr_type) ops).connect_async resolve context handler
        = some (runOps (WarbleGatt_Win10.new mac addr_type) ops,
            [Event.transport (TransportCall.FromBluetoothAddressAsync a addr_type),
              Event.connect_handler handler context (some (ErrorMessage.what
                "Failed to discover device (FromBluetoothAddressAsync returned nullptr)"))])
    ∧ (runOps (WarbleGatt_Win10.new mac addr_type) ops).characteristics = []
    ∧ (runOps (WarbleGatt_Win10.new mac addr_type) ops).services = ∅
    ∧ (runOps (WarbleGatt_Win10.new mac addr_type) ops).device = none := by
  obtain ⟨hinv, hm, ht⟩ := runOps_preserves ops (WarbleGatt_Win10.new mac addr_type)
    (fun _ => ⟨rfl, rfl⟩)
  have hm2 : (runOps (WarbleGatt_Win10.new mac addr_type) ops).mac = mac := hm
  have ht2 : (runOps (WarbleGatt_Win10.new mac addr_type) ops).addr_type = addr_type := ht
  refine ⟨?_, (hinv hdev).1, (hinv hdev).2, hdev⟩
  unfold WarbleGatt_Win10.connect_async
  simp [hdev, hm2, ht2, hmac, hres]

/-- Witness for C8: a connection that was connected and disconnected, then
asked to connect through a transport that resolves nothing. -/
theorem connect_async_device_not_found_witness :
    (runOps (WarbleGatt_Win10.new "a4:34:f1:00:11:22".toList BluetoothAddressType.Random)
        [GattOp.on_disconnect 5 (some 9),
          GattOp.connect_async (transportWith heartRateDevice) 1 2, GattOp.disconnect]).device
      = none
    ∧ mac_ulong "a4:34:f1:00:11:22".toList = some 0xa434f1001122
    ∧ (fun (_ : Nat) (_ : BluetoothAddressType) => (none : Option BluetoothLEDevice))
        0xa434f1001122 BluetoothAddressType.Random = none
    ∧ ((runOps (WarbleGatt_Win10.new "a4:34:f1:00:11:22".toList BluetoothAddressType.Random)
          [GattOp.on_disconnect 5 (some 9),
            GattOp.connect_async (transportWith heartRateDevice) 1 2,
            GattOp.disconnect]).connect_async (fun _ _ => none) 4 6
        = some (runOps
              (WarbleGatt_Win10.new "a4:34:f1:00:11:22".toList BluetoothAddressType.Random)
              [GattOp.on_disconnect 5 (some 9),
                GattOp.connect_async (transportWith heartRateDevice) 1 2, GattOp.disconnect],
            [Event.transport
                (TransportCall.FromBluetoothAddressAsync 0xa434f1001122
                  BluetoothAddressType.Random),
              Event.connect_handler 6 4 (some (ErrorMessage.what
                "Failed to discover device (FromBluetoothAddressAsync returned nullptr)"))])
      ∧ (runOps (WarbleGatt_Win10.new "a4:34:f1:00:11:22".toList BluetoothAddressType.Random)
          [GattOp.on_disconnect 5 (some 9),
            GattOp.connect_async (transportWith heartRateDevice) 1 2,
            GattOp.disconnect]).characteristics = []
      ∧ (runOps (WarbleGatt_Win10.new "a4:34:f1:00:11:22".toList BluetoothAddressType.Random)
          [GattOp.on_disconnect 5 (some 9),
            GattOp.connect_async (transportWith heartRateDevice) 1 2,
            GattOp.disconnect]).services = ∅
      ∧ (runOps (WarbleGatt_Win10.new "a4:34:f1:00:11:22".toList BluetoothAddressType.Random)
          [GattOp.on_disconnect 5 (some 9),
            GattOp.connect_async (transportWith heartRateDevice) 1 2,
            GattOp.disconnect]).device = none) :=
  ⟨by decide, by decide, rfl,
    connect_async_device_not_found "a4:34:f1:00:11:22".toList BluetoothAddressType.Random
      [GattOp.on_disconnect 5 (some 9), GattOp.connect_async (transportWith heartRateDevice) 1 2,
        GattOp.disconnect]
      (fun _ _ => none) 4 6 0xa434f1001122 (by decide) (by decide) rfl⟩

/-- C9 fails as stated: after a transport-fired disconnect the connection is
not connected, its handle for `00002a37-…` is still returned, and
`write_async` on it does issue a transport call. -/
theorem char_ops_unchecked_counterexample :
    gattDropped.is_connected = false
    ∧ ¬ (∀ c : WarbleGattChar_Win10,
          gattDropped.find_characteristic "00002a37-0000-1000-8000-00805f9b34fb".toList = some c →
          ∀ e ∈ c.write_async [1, 2] 2 0 4 GattCommunicationStatus.Success,
            e.isTransport = false) := by
  refine ⟨by decide, fun h => ?_⟩
  have h1 := h (WarbleGattChar_Win10.new
    { Uuid := 0x00002a3700001000800000805f9b34fb, AttributeHandle := 3 }) (by decide)
    (Event.transport (TransportCall.WriteValueAsync
      { Uuid := 0x00002a3700001000800000805f9b34fb, AttributeHandle := 3 } [1, 2]
      GattWriteOption.WriteWithResponse)) (by decide)
  exact absurd h1 (by decide)

/-- C9 as amended: for a handle that the characteristic table of a
connection still holds while that connection is not connected, each of the
five operations issues its one transport call all the same, and then invokes
the completion handler once: with no error when the transport answers
`Success` (a read hands over the value and its length modulo 256), and with
the operation's own error constant otherwise. There is no not-connected check
and no not-connected error. Handles that `cleanup()` has deleted are not in
any table and are outside this statement. -/
theorem char_ops_always_call_transport (s : WarbleGatt_Win10) (g : Guid)
    (c : WarbleGattChar_Win10) (_hown : mapFind s.characteristics g = some c)
    (_hnc : s.is_connected = false) (value : List Nat) (len context handler : Nat)
    (status : GattCommunicationStatus) (result : GattReadResult) :
    c.write_async value len context handler status
        = [Event.transport (TransportCall.WriteValueAsync c.characteristic (value.take len)
              GattWriteOption.WriteWithResponse),
            Event.char_handler handler context c.characteristic
              (if status = GattCommunicationStatus.Success then none
                else some ErrorMessage.WARBLE_GATT_WRITE_ERROR)]
    ∧ c.write_without_resp_async value len context handler status
        = [Event.transport (TransportCall.WriteValueAsync c.characteristic (value.take len)
              GattWriteOption.WriteWithoutResponse),
            Event.char_handler handler context c.characteristic
              (if status = GattCommunicationStatus.Success then none
                else some ErrorMessage.WARBLE_GATT_WRITE_ERROR)]
    ∧ c.read_async context handler result
        = [Event.transport (TransportCall.ReadValueAsync c.characteristic),
            if result.Status = GattCommunicationStatus.Success then
              Event.read_handler handler context c.characteristic (some result.Value)
                (result.Value.length % 256) none
            else Event.read_handler handler context c.characteristic none 0
              (some ErrorMessage.WARBLE_GATT_READ_ERROR)]
    ∧ c.enable_notifications_async context handler status
        = [Event.transport (TransportCall.WriteClientCharacteristicConfigurationDescriptorAsync
              c.characteristic GattClientCharacteristicConfigurationDescriptorValue.Notify),
            Event.char_handler handler context c.characteristic
              (if status = GattCommunicationStatus.Success then none
                else some ErrorMessage.WARBLE_GATT_ENABLE_NOTIFY_ERROR)]
    ∧ (c.disable_notifications_async context handler status).2
        = [Event.transport (TransportCall.WriteClientCharacteristicConfigurationDescriptorAsync
              c.characteristic GattClientCharacteristicConfigurationDescriptorValue.None),
            Event.char_handler handler context c.characteristic
              (if status = GattCommunicationStatus.Success then none
                else some ErrorMessage.WARBLE_GATT_DISABLE_NOTIFY_ERROR)] := by
  refine ⟨?_, ?_, ?_, ?_, ?_⟩
  · by_cases h : status = GattCommunicationStatus.Success <;>
      simp [WarbleGattChar_Win10.write_async, WarbleGattChar_Win10.write_inner_async, h]
  · by_cases h : status = GattCommunicationStatus.Success <;>
      simp [WarbleGattChar_Win10.write_without_resp_async,
        WarbleGattChar_Win10.write_inner_async, h]
  · rfl
  · by_cases h : status = GattCommunicationStatus.Success <;>
      simp [WarbleGattChar_Win10.enable_notifications_async, h]
  · by_cases h : status = GattCommunicationStatus.Success <;>
      simp [WarbleGattChar_Win10.disable_notifications_async, h]

/-- Witness for C9 as amended: the handle for `00002a37-…` of the connection
whose device has dropped; a two-byte write answered `Unreachable`, and a read
answered with 256 bytes, whose length arrives as 0. -/
theorem char_ops_always_call_transport_witness :
    mapFind gattDropped.characteristics 0x00002a3700001000800000805f9b34fb
        = some (WarbleGattChar_Win10.new
            { Uuid := 0x00002a3700001000800000805f9b34fb, AttributeHandle := 3 })
    ∧ gattDropped.is_connected = false
    ∧ readResult256.Value.length % 256 = 0
    ∧ heartRateHandle.read_async 0 4 readResult256
        = [Event.transport (TransportCall.ReadValueAsync heartRateHandle.characteristic),
            if readResult256.Status = GattCommunicationStatus.Success then
              Event.read_handler 4 0 heartRateHandle.characteristic (some readResult256.Value)
                (readResult256.Value.length % 256) none
            else Event.read_handler 4 0 heartRateHandle.characteristic none 0
              (some ErrorMessage.WARBLE_GATT_READ_ERROR)]
    ∧ (WarbleGattChar_Win10.new
          { Uuid := 0x00002a3700001000800000805f9b34fb, AttributeHandle := 3 }).write_async
          [1, 2, 3] 2 0 4 GattCommunicationStatus.Unreachable
        = [Event.transport (TransportCall.WriteValueAsync
              { Uuid := 0x00002a3700001000800000805f9b34fb, AttributeHandle := 3 } [1, 2]
              GattWriteOption.WriteWithResponse),
            Event.char_handler 4 0
              { Uuid := 0x00002a3700001000800000805f9b34fb, AttributeHandle := 3 }
              (some ErrorMessage.WARBLE_GATT_WRITE_ERROR)] :=
  ⟨by decide, by decide,
    by rw [show readResult256.Value = List.replicate 256 7 from rfl, List.length_replicate],
    (char_ops_always_call_transport gattDropped 0x00002a3700001000800000805f9b34fb
      heartRateHandle (by decide) (by decide) [] 0 0 4 GattCommunicationStatus.Success
      readResult256).2.2.1,
    (char_ops_always_call_transport gattDropped 0x00002a3700001000800000805f9b34fb
      (WarbleGattChar_Win10.new
        { Uuid := 0x00002a3700001000800000805f9b34fb, AttributeHandle := 3 })
      (by decide) (by decide) [1, 2, 3] 2 0 4 GattCommunicationStatus.Unreachable
      { Status := GattCommunicationStatus.Unreachable, Value := [] }).1⟩

/-! ### Lemmas on the discovered tables -/

theorem foldl_insert_services (services : List GattDeviceService) (acc : Finset Guid) :
    services.foldl (fun acc it => insert it.Uuid acc) acc
      = acc ∪ (services.map (fun it => it.Uuid)).toFinset := by
  induction services generalizing acc with
  | nil => simp
  | cons it rest ih =>
    rw [List.foldl_cons, ih]
    ext g
    simp only [Finset.mem_union, Finset.mem_insert, List.mem_toFinset, List.map_cons,
      List.mem_cons]
    tauto

theorem mapFind_foldl_emplace (chars : List GattCharacteristic)
    (table : List (Guid × WarbleGattChar_Win10)) (g : Guid) :
    (mapFind (chars.foldl (fun m it2 => mapEmplace m it2.Uuid (WarbleGattChar_Win10.new it2))
        table) g).isSome
      ↔ (mapFind table g).isSome ∨ ∃ ch ∈ chars, ch.Uuid = g := by
  induction chars generalizing table with
  | nil => simp
  | cons ch rest ih =>
    rw [List.foldl_cons, ih, mapFind_mapEmplace]
    by_cases h : ch.Uuid = g
    · cases hm : mapFind table g <;> simp [h]
    · cases hm : mapFind table g <;> simp [h]

theorem mapFind_addCharacteristics (results : List GattCharacteristicsResult)
    (table : List (Guid × WarbleGattChar_Win10)) (g : Guid) :
    (mapFind (addCharacteristics table results).1 g).isSome
      ↔ (mapFind table g).isSome
        ∨ ∃ r ∈ results.takeWhile (fun r => decide (r.Status = GattCommunicationStatus.Success)),
            ∃ ch ∈ r.Characteristics, ch.Uuid = g := by
  induction results generalizing table with
  | nil => simp [addCharacteristics]
  | cons r rest ih =>
    by_cases hs : r.Status = GattCommunicationStatus.Success
    · rw [addCharacteristics, if_pos hs, ih, mapFind_foldl_emplace, List.takeWhile_cons,
        if_pos (by simpa using hs)]
      simp only [List.mem_cons, exists_eq_or_imp]
      exact or_assoc
    · rw [addCharacteristics, if_neg hs, List.takeWhile_cons, if_neg (by simpa using hs)]
      simp

theorem addCharacteristics_ok (results : List GattCharacteristicsResult)
    (table : List (Guid × WarbleGattChar_Win10)) :
    (addCharacteristics table results).2 = true
      ↔ ∀ r ∈ results, r.Status = GattCommunicationStatus.Success := by
  induction results generalizing table with
  | nil => simp [addCharacteristics]
  | cons r rest ih =>
    by_cases hs : r.Status = GattCommunicationStatus.Success
    · rw [addCharacteristics, if_pos hs, ih]
      simp [hs]
    · rw [addCharacteristics, if_neg hs]
      simp [hs]

/-- Every handle of a table built by the enumeration loop sits under the
UUID of its own characteristic. -/
theorem mapFind_addCharacteristics_uuid (results : List GattCharacteristicsResult)
    (table : List (Guid × WarbleGattChar_Win10))
    (htable : ∀ g c, mapFind table g = some c → c = WarbleGattChar_Win10.new c.characteristic
      ∧ c.characteristic.Uuid = g)
    (g : Guid) (c : WarbleGattChar_Win10)
    (h : mapFind (addCharacteristics table results).1 g = some c) :
    c = WarbleGattChar_Win10.new c.characteristic ∧ c.characteristic.Uuid = g := by
  induction results generalizing table with
  | nil => exact htable g c h
  | cons r rest ih =>
    by_cases hs : r.Status = GattCommunicationStatus.Success
    · rw [addCharacteristics, if_pos hs] at h
      refine ih _ ?_ h
      generalize r.Characteristics = chars
      clear h ih
      induction chars generalizing table with
      | nil => exact htable
      | cons ch more ihc =>
        rw [List.foldl_cons]
        apply ihc
        intro g2 c2 h2
        rw [mapFind_mapEmplace] at h2
        cases hm : mapFind table g2 with
        | some c3 =>
          rw [hm] at h2
          simp at h2
          subst h2
          exact htable g2 c3 hm
        | none =>
          rw [hm] at h2
          by_cases he : ch.Uuid = g2
          · simp [he] at h2
            subst h2
            exact ⟨rfl, he⟩
          · simp [he] at h2
    · rw [addCharacteristics, if_neg hs] at h
      exact htable g c h

theorem discover_ok (s : WarbleGatt_Win10) (device : BluetoothLEDevice) (trace : List Event)
    (context handler : Nat) (htrace : ∀ e ∈ trace, e.isTransport = true)
    (hok : Event.connect_handler handler context none
      ∈ (discover s device trace context handler).2) :
    device.GetGattServicesAsync.Status = GattCommunicationStatus.Success
    ∧ (addCharacteristics s.characteristics
        (device.GetGattServicesAsync.Services.map (fun it => it.GetCharacteristicsAsync))).2
        = true := by
  have hno : Event.connect_handler handler context none ∉ trace := fun h => by
    have := htrace _ h
    simp [Event.isTransport] at this
  unfold discover at hok
  simp only at hok
  split_ifs at hok with h1 h2
  · exact ⟨h1, h2⟩
  · simp [hno] at hok
  · simp [hno] at hok

theorem discover_chars_failed (s : WarbleGatt_Win10) (device : BluetoothLEDevice)
    (trace : List Event) (context handler : Nat) (htrace : ∀ e ∈ trace, e.isTransport = true)
    (hfail : Event.connect_handler handler context
        (some (ErrorMessage.what "Failed to discover gatt characteristics"))
      ∈ (discover s device trace context handler).2) :
    device.GetGattServicesAsync.Status = GattCommunicationStatus.Success
    ∧ (addCharacteristics s.characteristics
        (device.GetGattServicesAsync.Services.map (fun it => it.GetCharacteristicsAsync))).2
        = false := by
  have hno : Event.connect_handler handler context
      (some (ErrorMessage.what "Failed to discover gatt characteristics")) ∉ trace := fun h => by
    have := htrace _ h
    simp [Event.isTransport] at this
  unfold discover at hfail
  simp only at hfail
  split_ifs at hfail with h1 h2
  · simp [hno] at hfail
  · exact ⟨h1, by simpa using h2⟩
  · simp [hno] at hfail

/-- The tables left by the enumeration on a connection whose tables were
empty, when the service enumeration succeeded. -/
theorem discover_tables (s : WarbleGatt_Win10) (device : BluetoothLEDevice) (trace : List Event)
    (context handler : Nat)
    (hst : device.GetGattServicesAsync.Status = GattCommunicationStatus.Success)
    (hc : s.characteristics = []) (hs : s.services = ∅) :
    (∀ g : Guid, g ∈ (discover s device trace context handler).1.services
        ↔ ∃ svc ∈ device.GetGattServicesAsync.Services, svc.Uuid = g)
    ∧ (∀ g : Guid,
        (mapFind (discover s device trace context handler).1.characteristics g).isSome
        ↔ ∃ svc ∈ device.GetGattServicesAsync.Services.takeWhile
              (fun svc => decide (svc.GetCharacteristicsAsync.Status
                = GattCommunicationStatus.Success)),
            ∃ ch ∈ svc.GetCharacteristicsAsync.Characteristics, ch.Uuid = g)
    ∧ (∀ (g : Guid) (c : WarbleGattChar_Win10),
        mapFind (discover s device trace context handler).1.characteristics g = some c →
        c = WarbleGattChar_Win10.new c.characteristic ∧ c.characteristic.Uuid = g) := by
  have hsv : (discover s device trace context handler).1.services
      = s.services ∪ (device.GetGattServicesAsync.Services.map (fun it => it.Uuid)).toFinset := by
    unfold discover
    simp only [hst, if_true]
    split_ifs <;> exact foldl_insert_services _ _
  have hch : (discover s device trace context handler).1.characteristics
      = (addCharacteristics s.characteristics
          (device.GetGattServicesAsync.Services.map (fun it => it.GetCharacteristicsAsync))).1 := by
    unfold discover
    simp only [hst, if_true]
    split_ifs <;> rfl
  refine ⟨fun g => ?_, fun g => ?_, fun g c h => ?_⟩
  · rw [hsv, hs]
    simp
  · rw [hch, mapFind_addCharacteristics, hc, List.takeWhile_map]
    simp [mapFind, Function.comp_def]
  · rw [hch, hc] at h
    exact mapFind_addCharacteristics_uuid _ [] (fun g c h => by simp [mapFind] at h) g c h

/-- What `connect_async` leaves in the tables of a connection whose tables
were empty when it reached the characteristic enumeration: every enumerated
service UUID, and a handle for each characteristic of the services in front
of the first one whose enumeration failed. -/
theorem connect_async_tables
    (resolve : Nat → BluetoothAddressType → Option BluetoothLEDevice)
    (s : WarbleGatt_Win10) (hc : s.characteristics = []) (hs : s.services = ∅)
    (context handler : Nat) (r : WarbleGatt_Win10 × List Event)
    (hrun : s.connect_async resolve context handler = some r)
    (error : Option ErrorMessage)
    (herr : error = none
      ∨ error = some (ErrorMessage.what "Failed to discover gatt characteristics"))
    (hdone : Event.connect_handler handler context error ∈ r.2) :
    ∃ device : BluetoothLEDevice, r.1.device = some device
      ∧ (s.device = some device
          ∨ ∃ a, mac_ulong s.mac = some a ∧ resolve a s.addr_type = some device)
      ∧ device.GetGattServicesAsync.Status = GattCommunicationStatus.Success
      ∧ ((∀ svc ∈ device.GetGattServicesAsync.Services,
            svc.GetCharacteristicsAsync.Status = GattCommunicationStatus.Success) ↔ error = none)
      ∧ (∀ g : Guid, g ∈ r.1.services
          ↔ ∃ svc ∈ device.GetGattServicesAsync.Services, svc.Uuid = g)
      ∧ (∀ g : Guid, (mapFind r.1.characteristics g).isSome
          ↔ ∃ svc ∈ device.GetGattServicesAsync.Services.takeWhile
                (fun svc => decide (svc.GetCharacteristicsAsync.Status
                  = GattCommunicationStatus.Success)),
              ∃ ch ∈ svc.GetCharacteristicsAsync.Characteristics, ch.Uuid = g)
      ∧ (∀ (g : Guid) (c : WarbleGattChar_Win10), mapFind r.1.characteristics g = some c →
          c = WarbleGattChar_Win10.new c.characteristic ∧ c.characteristic.Uuid = g) := by
  have key : ∀ (s1 : WarbleGatt_Win10) (device : BluetoothLEDevice) (trace : List Event),
      (∀ e ∈ trace, e.isTransport = true) → s1.device = some device →
      s1.characteristics = [] → s1.services = ∅ →
      Event.connect_handler handler context error
        ∈ (discover s1 device trace context handler).2 →
      (discover s1 device trace context handler).1.device = some device
      ∧ device.GetGattServicesAsync.Status = GattCommunicationStatus.Success
      ∧ ((∀ svc ∈ device.GetGattServicesAsync.Services,
            svc.GetCharacteristicsAsync.Status = GattCommunicationStatus.Success) ↔ error = none)
      ∧ (∀ g : Guid, g ∈ (discover s1 device trace context handler).1.services
          ↔ ∃ svc ∈ device.GetGattServicesAsync.Services, svc.Uuid = g)
      ∧ (∀ g : Guid,
          (mapFind (discover s1 device trace context handler).1.characteristics g).isSome
          ↔ ∃ svc ∈ device.GetGattServicesAsync.Services.takeWhile
                (fun svc => decide (svc.GetCharacteristicsAsync.Status
                  = GattCommunicationStatus.Success)),
              ∃ ch ∈ svc.GetCharacteristicsAsync.Characteristics, ch.Uuid = g)
      ∧ (∀ (g : Guid) (c : WarbleGattChar_Win10),
          mapFind (discover s1 device trace context handler).1.characteristics g = some c →
          c = WarbleGattChar_Win10.new c.characteristic ∧ c.characteristic.Uuid = g) := by
    intro s1 device trace htrace hdev hc1 hs1 hmem
    have hd1 := (discover_fields s1 device trace context handler).1
    rcases herr with rfl | rfl
    · obtain ⟨hst, hall⟩ := discover_ok s1 device trace context handler htrace hmem
      obtain ⟨t1, t2, t3⟩ := discover_tables s1 device trace context handler hst hc1 hs1
      rw [addCharacteristics_ok] at hall
      refine ⟨hd1.trans hdev, hst, ⟨fun _ => rfl, fun _ svc hsvc => ?_⟩, t1, t2, t3⟩
      exact hall _ (List.mem_map_of_mem _ hsvc)
    · obtain ⟨hst, hall⟩ := discover_chars_failed s1 device trace context handler htrace hmem
      obtain ⟨t1, t2, t3⟩ := discover_tables s1 device trace context handler hst hc1 hs1
      refine ⟨hd1.trans hdev, hst, ⟨fun h => ?_, fun h => by cases h⟩, t1, t2, t3⟩
      have hok := (addCharacteristics_ok
        (device.GetGattServicesAsync.Services.map (fun it => it.GetCharacteristicsAsync))
        s1.characteristics).2 (fun r hr => by
          obtain ⟨svc, hsvc, rfl⟩ := List.mem_map.1 hr
          exact h svc hsvc)
      rw [hall] at hok
      cases hok
  rcases connect_async_cases resolve s context handler r hrun with
    ⟨device, hd, rfl⟩ | ⟨a, hd, -, -, rfl⟩
      | ⟨a, device, s1, hd, hm, hr, h1, -, -, h4, h5, -, -, rfl⟩
  · obtain ⟨k1, k2, k3, k4, k5, k6⟩ := key s device [] (by simp) hd hc hs hdone
    exact ⟨device, k1, Or.inl hd, k2, k3, k4, k5, k6⟩
  · rcases herr with rfl | rfl <;> simp at hdone
  · obtain ⟨k1, k2, k3, k4, k5, k6⟩ := key s1 device _ (by simp [Event.isTransport]) h1
      (h4.trans hc) (h5.trans hs) hdone
    exact ⟨device, k1, Or.inr ⟨a, hm, hr⟩, k2, k3, k4, k5, k6⟩

/-! ### UUID text read back by the platform -/

theorem narrow_hexDigitLower : ∀ n : Nat, n < 16 →
    Char.ofNat ((hexDigitLower n).toNat % 256) = hexDigitLower n := by
  decide

theorem hexDigits_succ (v w : Nat) :
    hexDigits v (w + 1) = hexDigitLower (v / 16 ^ w % 16) :: hexDigits v w := by
  unfold hexDigits
  rw [List.range_succ_eq_map, List.map_cons, List.map_map]
  congr 1
  apply List.map_congr_left
  intro i _
  show hexDigitLower (v / 16 ^ (w + 1 - 1 - (i + 1)) % 16) = _
  have e : w + 1 - 1 - (i + 1) = w - 1 - i := by omega
  rw [e]

theorem narrow_hexDigits (v w : Nat) : narrow (hexDigits v w) = hexDigits v w := by
  unfold narrow hexDigits
  rw [List.map_map]
  apply List.map_congr_left
  intro i _
  exact narrow_hexDigitLower _ (Nat.mod_lt _ (by norm_num))

theorem hexNumber_append (l1 l2 : List Char) (acc : Nat) :
    hexNumber (l1 ++ l2) acc = (hexNumber l1 acc).bind (hexNumber l2) := by
  induction l1 generalizing acc with
  | nil => rfl
  | cons c cs ih =>
    simp only [List.cons_append, hexNumber]
    cases hexVal c with
    | none => rfl
    | some d => exact ih _

theorem hexNumber_hexDigits (v w acc : Nat) :
    hexNumber (hexDigits v w) acc = some (acc * 16 ^ w + v % 16 ^ w) := by
  induction w generalizing acc with
  | zero => simp [hexDigits, hexNumber, Nat.mod_one]
  | succ w ih =>
    rw [hexDigits_succ, hexNumber, hexVal_hexDigitLower _ (Nat.mod_lt _ (by norm_num))]
    show hexNumber (hexDigits v w) (16 * acc + v / 16 ^ w % 16) = _
    rw [ih, Nat.mod_pow_succ]
    congr 1
    ring

theorem uuidText_eq (g : Guid) :
    uuidText g = hexDigits (g / 2 ^ 96 % 2 ^ 32) 8 ++ '-' :: (hexDigits (g / 2 ^ 80 % 2 ^ 16) 4
      ++ '-' :: (hexDigits (g / 2 ^ 64 % 2 ^ 16) 4 ++ '-' :: (hexDigits (g / 2 ^ 48 % 2 ^ 16) 4
      ++ '-' :: hexDigits (g % 2 ^ 48) 12))) := by
  have hd : Char.ofNat ('-'.toNat % 256) = '-' := by decide
  unfold uuidText Guid.ToString substr
  simp only [narrow, List.map_append, List.map_cons, List.map_nil, hd]
  simp only [← narrow.eq_1, narrow_hexDigits]
  simp only [List.singleton_append, List.drop_succ_cons, List.drop_zero, List.append_assoc]
  rfl

theorem mem_hexDigits {c : Char} {v w : Nat} (h : c ∈ hexDigits v w) :
    ∃ n : Nat, n < 16 ∧ c = hexDigitLower n := by
  unfold hexDigits at h
  obtain ⟨i, -, rfl⟩ := List.mem_map.1 h
  exact ⟨_, Nat.mod_lt _ (by norm_num), rfl⟩

theorem c_str_eq_self (l : Text) (h : ∀ c ∈ l, c ≠ Char.ofNat 0) : c_str l = l := by
  unfold c_str
  exact List.takeWhile_eq_self_iff.2 (fun c hc => by simpa using h c hc)

/-- The braced text of a UUID holds no NUL, so the `Platform::String` built
from it is the whole text. -/
theorem c_str_braced_uuidText (g : Guid) :
    c_str (['{'] ++ uuidText g ++ ['}']) = ['{'] ++ uuidText g ++ ['}'] := by
  apply c_str_eq_self
  intro c hc
  have hdig : ∀ v w : Nat, c ∈ hexDigits v w → c ≠ Char.ofNat 0 := fun v w hm => by
    obtain ⟨n, hn, rfl⟩ := mem_hexDigits hm
    exact (hexVal_isSome_not_special (hexVal_hexDigitLower n hn)).2.2.2.2.2
  rw [uuidText_eq] at hc
  simp only [List.mem_append, List.mem_cons, List.mem_singleton, List.not_mem_nil,
    or_false] at hc
  rcases hc with (rfl | h | rfl | h | rfl | h | rfl | h | rfl | h) | rfl
  · decide
  · exact hdig _ _ h
  · decide
  · exact hdig _ _ h
  · decide
  · exact hdig _ _ h
  · decide
  · exact hdig _ _ h
  · decide
  · exact hdig _ _ h
  · decide

/-- The platform parses the text of a 128-bit UUID, with braces put around it,
back to that UUID. -/
theorem UUID_TO_GUID_uuidText (g : Guid) (hg : g < 2 ^ 128) : UUID_TO_GUID (uuidText g) = some g := by
  have h1 : UUID_TO_GUID (uuidText g)
      = hexNumber (hexDigits (g / 2 ^ 96 % 2 ^ 32) 8 ++ (hexDigits (g / 2 ^ 80 % 2 ^ 16) 4
          ++ (hexDigits (g / 2 ^ 64 % 2 ^ 16) 4 ++ (hexDigits (g / 2 ^ 48 % 2 ^ 16) 4
          ++ hexDigits (g % 2 ^ 48) 12)))) 0 := by
    unfold UUID_TO_GUID
    rw [c_str_braced_uuidText, uuidText_eq]
    rfl
  rw [h1]
  simp only [hexNumber_append, hexNumber_hexDigits, Option.some_bind, Option.bind_eq_bind]
  refine congrArg some ?_
  have e1 : g / 2 ^ 64 = g / 2 ^ 48 / 2 ^ 16 := by rw [Nat.div_div_eq_div_mul]; norm_num
  have e2 : g / 2 ^ 80 = g / 2 ^ 64 / 2 ^ 16 := by rw [Nat.div_div_eq_div_mul]; norm_num
  have e3 : g / 2 ^ 96 = g / 2 ^ 80 / 2 ^ 16 := by rw [Nat.div_div_eq_div_mul]; norm_num
  rw [e3, e2, e1]
  have hg2 : @LT.lt Nat _ g 340282366920938463463374607431768211456 := hg
  norm_num
  omega

/-- C6: take a connection whose characteristic table and service set are
empty (as in a freshly constructed one) and let `connect_async` complete
without error. Then for every text `u` that parses as a UUID (the conversion
of the lookups: braces added, text cut at the first NUL, platform parse),
`find_characteristic(u)` returns a handle exactly when that UUID is the UUID
of a characteristic enumerated for one of the discovered services (and the
handle wraps a characteristic of that UUID), and `service_exists(u)` is true
exactly when it is one of the enumerated service UUIDs; for a text that does
not parse both return not-found; and the canonical text of every enumerated
128-bit service or characteristic UUID is found. -/
theorem lookups_reflect_enumeration
    (resolve : Nat → BluetoothAddressType → Option BluetoothLEDevice)
    (s : WarbleGatt_Win10) (hc : s.characteristics = []) (hs : s.services = ∅)
    (context handler : Nat) (r : WarbleGatt_Win10 × List Event)
    (hrun : s.connect_async resolve context handler = some r)
    (hok : Event.connect_handler handler context none ∈ r.2) :
    ∃ device : BluetoothLEDevice, r.1.device = some device
      ∧ (s.device = some device
          ∨ ∃ a, mac_ulong s.mac = some a ∧ resolve a s.addr_type = some device)
      ∧ (∀ (u : Text) (g : Guid), UUID_TO_GUID u = some g →
          ((r.1.find_characteristic u).isSome
            ↔ ∃ svc ∈ device.GetGattServicesAsync.Services,
                ∃ ch ∈ svc.GetCharacteristicsAsync.Characteristics, ch.Uuid = g)
          ∧ (∀ c : WarbleGattChar_Win10, r.1.find_characteristic u = some c →
              c.characteristic.Uuid = g ∧ c.uuid_str = uuidText g)
          ∧ (r.1.service_exists u = true
            ↔ ∃ svc ∈ device.GetGattServicesAsync.Services, svc.Uuid = g))
      ∧ (∀ u : Text, UUID_TO_GUID u = none →
          r.1.find_characteristic u = none ∧ r.1.service_exists u = false)
      ∧ (∀ svc ∈ device.GetGattServicesAsync.Services,
          (svc.Uuid < 2 ^ 128 → r.1.service_exists (uuidText svc.Uuid) = true)
          ∧ ∀ ch ∈ svc.GetCharacteristicsAsync.Characteristics, ch.Uuid < 2 ^ 128 →
              (r.1.find_characteristic (uuidText ch.Uuid)).isSome = true) := by
  obtain ⟨device, h1, h2, -, h4, h5, h6, h7⟩ :=
    connect_async_tables resolve s hc hs context handler r hrun none (Or.inl rfl) hok
  have hall := h4.2 rfl
  have htw : device.GetGattServicesAsync.Services.takeWhile
      (fun svc => decide (svc.GetCharacteristicsAsync.Status = GattCommunicationStatus.Success))
      = device.GetGattServicesAsync.Services :=
    List.takeWhile_eq_self_iff.2 (fun svc hsvc => by simpa using hall svc hsvc)
  rw [htw] at h6
  refine ⟨device, h1, h2, fun u g hu => ⟨?_, fun c hcu => ?_, ?_⟩, fun u hu => ?_,
    fun svc hsvc => ⟨fun hg => ?_, fun ch hch hg => ?_⟩⟩
  · simp only [WarbleGatt_Win10.find_characteristic, hu]
    exact h6 g
  · simp only [WarbleGatt_Win10.find_characteristic, hu] at hcu
    obtain ⟨e1, e2⟩ := h7 g c hcu
    refine ⟨e2, ?_⟩
    rw [e1, ← e2]
    rfl
  · simp only [WarbleGatt_Win10.service_exists, hu, decide_eq_true_eq]
    exact h5 g
  · simp [WarbleGatt_Win10.find_characteristic, WarbleGatt_Win10.service_exists, hu]
  · simp only [WarbleGatt_Win10.service_exists, UUID_TO_GUID_uuidText _ hg, decide_eq_true_eq]
    exact (h5 _).2 ⟨svc, hsvc, rfl⟩
  · simp only [WarbleGatt_Win10.find_characteristic, UUID_TO_GUID_uuidText _ hg]
    exact (h6 _).2 ⟨svc, hsvc, ch, hch, rfl⟩

/-- Witness for C6: address `a4:34:f1:00:11:22`, one service `0000180d-…`
with one characteristic `00002a37-…`; the connect completes without error,
`service_exists` is true and `find_characteristic` returns a handle. The
conversion stops at a NUL: the UUID text followed by a closing brace and a NUL
converts to the UUID as well. -/
theorem lookups_reflect_enumeration_witness :
    gattFresh.characteristics = [] ∧ gattFresh.services = ∅
    ∧ gattFresh.connect_async (transportWith heartRateDevice) 1 2
        = some (gattConnected,
            [Event.transport (TransportCall.FromBluetoothAddressAsync 0xa434f1001122
                BluetoothAddressType.Random),
              Event.transport TransportCall.GetGattServicesAsync,
              Event.transport
                (TransportCall.GetCharacteristicsAsync 0x0000180d00001000800000805f9b34fb),
              Event.connect_handler 2 1 none])
    ∧ gattConnected.service_exists "0000180d-0000-1000-8000-00805f9b34fb".toList = true
    ∧ (gattConnected.find_characteristic "00002a37-0000-1000-8000-00805f9b34fb".toList).isSome
        = true
    ∧ gattConnected.service_exists "00002a37-0000-1000-8000-00805f9b34fb".toList = false
    ∧ gattConnected.find_characteristic "heart rate".toList = none
    ∧ UUID_TO_GUID ("00002a37-0000-1000-8000-00805f9b34fb\x7d".toList ++ [Char.ofNat 0])
        = some 0x00002a3700001000800000805f9b34fb
    ∧ ∃ device : BluetoothLEDevice, gattConnected.device = some device
      ∧ (gattFresh.device = some device
          ∨ ∃ a, mac_ulong gattFresh.mac = some a
              ∧ transportWith heartRateDevice a gattFresh.addr_type = some device)
      ∧ (∀ (u : Text) (g : Guid), UUID_TO_GUID u = some g →
          ((gattConnected.find_characteristic u).isSome
            ↔ ∃ svc ∈ device.GetGattServicesAsync.Services,
                ∃ ch ∈ svc.GetCharacteristicsAsync.Characteristics, ch.Uuid = g)
          ∧ (∀ c : WarbleGattChar_Win10, gattConnected.find_characteristic u = some c →
              c.characteristic.Uuid = g ∧ c.uuid_str = uuidText g)
          ∧ (gattConnected.service_exists u = true
            ↔ ∃ svc ∈ device.GetGattServicesAsync.Services, svc.Uuid = g))
      ∧ (∀ u : Text, UUID_TO_GUID u = none →
          gattConnected.find_characteristic u = none ∧ gattConnected.service_exists u = false)
      ∧ (∀ svc ∈ device.GetGattServicesAsync.Services,
          (svc.Uuid < 2 ^ 128 → gattConnected.service_exists (uuidText svc.Uuid) = true)
          ∧ ∀ ch ∈ svc.GetCharacteristicsAsync.Characteristics, ch.Uuid < 2 ^ 128 →
              (gattConnected.find_characteristic (uuidText ch.Uuid)).isSome = true) :=
  ⟨rfl, rfl, by decide, by decide, by decide, by decide, by decide, by decide,
    lookups_reflect_enumeration (transportWith heartRateDevice) gattFresh rfl rfl 1 2
      (gattConnected,
        [Event.transport (TransportCall.FromBluetoothAddressAsync 0xa434f1001122
            BluetoothAddressType.Random),
          Event.transport TransportCall.GetGattServicesAsync,
          Event.transport
            (TransportCall.GetCharacteristicsAsync 0x0000180d00001000800000805f9b34fb),
          Event.connect_handler 2 1 none])
      (by decide) (by decide)⟩

/-- C7 fails as stated: the connect attempt on the device whose second
service fails its characteristic enumeration ends with the handler invoked
with the error, and yet it is not true that every lookup finds nothing: the
first service and its characteristic are found. -/
theorem abort_keeps_partial_results_counterexample :
    gattFresh.connect_async (transportWith halfFailingDevice) 1 2 = some gattAborted
    ∧ Event.connect_handler 2 1
        (some (ErrorMessage.what "Failed to discover gatt characteristics")) ∈ gattAborted.2
    ∧ ¬ (∀ u : Text, gattAborted.1.find_characteristic u = none
          ∧ gattAborted.1.service_exists u = false) := by
  refine ⟨by decide, by decide, fun h => ?_⟩
  have h1 := (h "0000180d-0000-1000-8000-00805f9b34fb".toList).2
  exact absurd h1 (by decide)

/-- C7 as amended: when `connect_async`, started on a connection with empty
tables, aborts because a characteristic enumeration reports a non-success
status, then at the time the handler is invoked with the error the connection
holds the device, the UUID of every enumerated service, and a handle for every
characteristic of the services in front of the first failing one:
`service_exists` is true exactly for the enumerated service UUIDs and
`find_characteristic` returns a handle exactly for those characteristics. -/
theorem abort_keeps_partial_results
    (resolve : Nat → BluetoothAddressType → Option BluetoothLEDevice)
    (s : WarbleGatt_Win10) (hc : s.characteristics = []) (hs : s.services = ∅)
    (context handler : Nat) (r : WarbleGatt_Win10 × List Event)
    (hrun : s.connect_async resolve context handler = some r)
    (hfail : Event.connect_handler handler context
      (some (ErrorMessage.what "Failed to discover gatt characteristics")) ∈ r.2) :
    ∃ device : BluetoothLEDevice, r.1.device = some device
      ∧ (s.device = some device
          ∨ ∃ a, mac_ulong s.mac = some a ∧ resolve a s.addr_type = some device)
      ∧ (∃ svc ∈ device.GetGattServicesAsync.Services,
          svc.GetCharacteristicsAsync.Status ≠ GattCommunicationStatus.Success)
      ∧ (∀ (u : Text) (g : Guid), UUID_TO_GUID u = some g →
          (r.1.service_exists u = true
            ↔ ∃ svc ∈ device.GetGattServicesAsync.Services, svc.Uuid = g)
          ∧ ((r.1.find_characteristic u).isSome
            ↔ ∃ svc ∈ device.GetGattServicesAsync.Services.takeWhile
                  (fun svc => decide (svc.GetCharacteristicsAsync.Status
                    = GattCommunicationStatus.Success)),
                ∃ ch ∈ svc.GetCharacteristicsAsync.Characteristics, ch.Uuid = g)) := by
  obtain ⟨device, h1, h2, -, h4, h5, h6, -⟩ :=
    connect_async_tables resolve s hc hs context handler r hrun _ (Or.inr rfl) hfail
  refine ⟨device, h1, h2, ?_, fun u g hu => ⟨?_, ?_⟩⟩
  · by_contra hcon
    push_neg at hcon
    have := h4.1 hcon
    cases this
  · simp only [WarbleGatt_Win10.service_exists, hu, decide_eq_true_eq]
    exact h5 g
  · simp only [WarbleGatt_Win10.find_characteristic, hu]
    exact h6 g

/-- Witness for C7 as amended: the device whose second service fails. -/
theorem abort_keeps_partial_results_witness :
    gattFresh.characteristics = [] ∧ gattFresh.services = ∅
    ∧ gattAborted.1.service_exists "0000180f-0000-1000-8000-00805f9b34fb".toList = true
    ∧ (gattAborted.1.find_characteristic "00002a37-0000-1000-8000-00805f9b34fb".toList).isSome
        = true
    ∧ ∃ device : BluetoothLEDevice, gattAborted.1.device = some device
      ∧ (gattFresh.device = some device
          ∨ ∃ a, mac_ulong gattFresh.mac = some a
              ∧ transportWith halfFailingDevice a gattFresh.addr_type = some device)
      ∧ (∃ svc ∈ device.GetGattServicesAsync.Services,
          svc.GetCharacteristicsAsync.Status ≠ GattCommunicationStatus.Success)
      ∧ (∀ (u : Text) (g : Guid), UUID_TO_GUID u = some g →
          (gattAborted.1.service_exists u = true
            ↔ ∃ svc ∈ device.GetGattServicesAsync.Services, svc.Uuid = g)
          ∧ ((gattAborted.1.find_characteristic u).isSome
            ↔ ∃ svc ∈ device.GetGattServicesAsync.Services.takeWhile
                  (fun svc => decide (svc.GetCharacteristicsAsync.Status
                    = GattCommunicationStatus.Success)),
                ∃ ch ∈ svc.GetCharacteristicsAsync.Characteristics, ch.Uuid = g)) :=
  ⟨rfl, rfl, by decide, by decide,
    abort_keeps_partial_results (transportWith halfFailingDevice) gattFresh rfl rfl 1 2
      gattAborted (by decide) (by decide)⟩

end Warble
